import Mathlib

set_option maxHeartbeats 1000000
set_option maxRecDepth 2000

/-!
Verification model of the rustysunset daemon's core: the phase/schedule
resolver (src/scheduler.rs), the transition interpolation engine
(src/transition.rs) and the persisted-state module (src/state.rs).

Modelling conventions:
* `u16` temperatures are natural numbers; the `as u16` / `as i16` casts are
  modelled bit-faithfully (`toU16`, `toI16`, `wrapI16`), with i16 arithmetic
  wrapping as in release builds.
* `f64` arithmetic is idealised as exact arithmetic: rational (`ℚ`) wherever
  the code only uses field operations, real (`ℝ`) for the `sine` easing which
  needs `cos`.  The `f64 → i16` conversion truncates toward zero and
  saturates (`satI16R`).
* `DateTime<Local>` instants are integers (seconds, fixed-offset local time,
  no DST folds); `NaiveTime` values are seconds-of-day in `[0, 86400)`;
  chrono's wrapping `NaiveTime ± Duration` arithmetic is taken modulo 86400.
* The sunrise crate's solar calculation is an external pure function,
  modelled as parameters `sr ss : ℤ → ℤ` giving the sunrise/sunset instant
  of a calendar day (day number = instant divided by 86400, floored).
* Rust's `str::parse::<f64>` is modelled for finite decimal literals
  (optional sign, digits, optional fraction, optional exponent); the IEEE
  specials inf/NaN and binary rounding are outside this idealisation.
* Filesystem and TOML (de)serialisation in src/state.rs are external
  collaborators, modelled as oracle functions; `Except.error` models a panic.
-/

/-! ## Machine-integer casts -/

/-- `as u16` on an integer: two's-complement wrap into `[0, 65536)`. -/
def toU16 (z : ℤ) : ℕ := (z % 65536).toNat

/-- `as i16` reinterpretation of a `u16`-ranged natural. -/
def toI16 (n : ℕ) : ℤ :=
  if (n : ℤ) % 65536 < 32768 then (n : ℤ) % 65536 else (n : ℤ) % 65536 - 65536

/-- Wrapping `i16` arithmetic (release-build two's-complement wrap),
mapping any integer into `[-32768, 32768)`. -/
def wrapI16 (z : ℤ) : ℤ := (z + 32768) % 65536 - 32768

/-- Truncation toward zero of a rational (the rounding of Rust's
float-to-int `as` cast). -/
def truncQ (q : ℚ) : ℤ := if 0 ≤ q then ⌊q⌋ else ⌈q⌉

/-- `as i16` on a rational-valued float: truncate toward zero, then
saturate at the i16 bounds. -/
def satI16Q (q : ℚ) : ℤ := max (-32768) (min 32767 (truncQ q))

/-- Truncation toward zero of a real. -/
noncomputable def truncR (x : ℝ) : ℤ := if 0 ≤ x then ⌊x⌋ else ⌈x⌉

/-- `as i16` on a real-valued float: truncate toward zero, then saturate. -/
noncomputable def satI16R (x : ℝ) : ℤ := max (-32768) (min 32767 (truncR x))

/-! ## String scanning helpers (models of the `str` operations used by
`parse_cubic_bezier`), written over `List Char` so they evaluate. -/

/-- One left-trim pass of Unicode-whitespace characters (`str::trim`). -/
def trimLeftChars : List Char → List Char
  | [] => []
  | c :: cs => if c.isWhitespace then trimLeftChars cs else c :: cs

/-- `str::trim`: drop whitespace from both ends. -/
def trimChars (cs : List Char) : List Char :=
  trimLeftChars (trimLeftChars cs.reverse).reverse

/-- `str::starts_with` plus removal of the matched start (the `?`-propagated
prefix-stripping in `parse_cubic_bezier`). -/
def dropStartChars : List Char → List Char → Option (List Char)
  | cs, [] => some cs
  | [], _ :: _ => none
  | c :: cs, p :: ps => if c = p then dropStartChars cs ps else none

/-- Removal of a matched end of the string (suffix stripping). -/
def dropEndChars (cs p : List Char) : Option (List Char) :=
  (dropStartChars cs.reverse p.reverse).map List.reverse

/-- `str::split(',')`: split on every separator occurrence, keeping empty
pieces, with `[""]` for the empty string. -/
def splitOnChar (sep : Char) : List Char → List (List Char)
  | [] => [[]]
  | c :: cs =>
    let r := splitOnChar sep cs
    if c = sep then [] :: r
    else
      match r with
      | h :: t => (c :: h) :: t
      | [] => [[c]]

/-! ## Decimal-literal scanner (model of `str::parse::<f64>`) -/

/-- Scan a run of decimal digits: value, digit count, rest. -/
def parseNatAux : List Char → ℕ → ℕ → ℕ × ℕ × List Char
  | [], acc, k => (acc, k, [])
  | c :: cs, acc, k =>
    if c.isDigit then parseNatAux cs (10 * acc + (c.toNat - 48)) (k + 1)
    else (acc, k, c :: cs)

/-- Scanned shape of a decimal float literal: sign, integer part, fraction
digits value, fraction digit count, exponent sign, exponent value. -/
abbrev FloatScan := Bool × ℕ × ℕ × ℕ × Bool × ℕ

/-- Scan the exponent part after `e`/`E`. -/
def scanExp (neg : Bool) (ip fp fk : ℕ) (r : List Char) : Option FloatScan :=
  let se : Bool × List Char :=
    match r with
    | '+' :: r2 => (false, r2)
    | '-' :: r2 => (true, r2)
    | r2 => (false, r2)
  let p := parseNatAux se.2 0 0
  if p.2.1 = 0 ∨ p.2.2 ≠ [] then none else some (neg, ip, fp, fk, se.1, p.1)

/-- Scan a finite decimal float literal (`str::parse::<f64>` grammar for
finite decimals: optional sign, digits with optional fraction, optional
exponent; the whole string must be consumed, at least one digit). -/
def scanFloat (cs0 : List Char) : Option FloatScan :=
  let sg : Bool × List Char :=
    match cs0 with
    | '+' :: r => (false, r)
    | '-' :: r => (true, r)
    | r => (false, r)
  let ipr := parseNatAux sg.2 0 0
  let frac : ℕ × ℕ × List Char :=
    match ipr.2.2 with
    | '.' :: r => parseNatAux r 0 0
    | r => (0, 0, r)
  if ipr.2.1 = 0 ∧ frac.2.1 = 0 then none
  else
    match frac.2.2 with
    | [] => some (sg.1, ipr.1, frac.1, frac.2.1, false, 0)
    | 'e' :: r => scanExp sg.1 ipr.1 frac.1 frac.2.1 r
    | 'E' :: r => scanExp sg.1 ipr.1 frac.1 frac.2.1 r
    | _ => none

/-- Rational value of a scanned decimal literal. -/
def floatVal (f : FloatScan) : ℚ :=
  (if f.1 then -1 else 1) * ((f.2.1 : ℚ) + (f.2.2.1 : ℚ) / 10 ^ f.2.2.2.1) *
    10 ^ ((if f.2.2.2.2.1 then -1 else 1) * (f.2.2.2.2.2 : ℤ))

/-- `part.trim().parse::<f64>().ok()`. -/
def parseFloatChars (cs : List Char) : Option ℚ :=
  (scanFloat (trimChars cs)).map floatVal

/-! ## Easing library (src/transition.rs) -/

/-- Structural part of `parse_cubic_bezier`: trim, strip `cubic_bezier(`
and `)`, split on commas, and require exactly four arguments. -/
def splitBezierArgs (s : String) : Option (List Char × List Char × List Char × List Char) :=
  match dropStartChars (trimChars s.data) ("cubic_bezier(".data) with
  | none => none
  | some cs1 =>
    match dropEndChars cs1 [')'] with
    | none => none
    | some inner =>
      match splitOnChar ',' inner with
      | [a, b, c, d] => some (a, b, c, d)
      | _ => none

/-- `parse_cubic_bezier`: four comma-separated float components inside
`cubic_bezier(...)`, or `none` on any malformation. -/
def parseCubicBezier (s : String) : Option (ℚ × ℚ × ℚ × ℚ) :=
  match splitBezierArgs s with
  | none => none
  | some (a, b, c, d) => do
    return (← parseFloatChars a, ← parseFloatChars b, ← parseFloatChars c,
            ← parseFloatChars d)

/-- The Newton-Raphson loop of `eval_cubic_bezier`: at most `fuel`
iterations, stopping early when the derivative is below `1e-12`. -/
def bezierNewton : ℕ → ℚ → ℚ → ℚ → ℚ → ℚ → ℚ
  | 0, _, _, _, _, t => t
  | n + 1, ax, bx, cx, x, t =>
    let xT := ((ax * t + bx) * t + cx) * t
    let dx := ((3 * ax) * t + 2 * bx) * t + cx
    if |dx| < 1 / 1000000000000 then t
    else bezierNewton n ax bx cx x (t - (xT - x) / dx)

/-- `eval_cubic_bezier`: solve the x-polynomial for the curve parameter by
Newton iteration (8 steps, derivative guard), clamp to `[0,1]`, evaluate
the y-polynomial. -/
def evalCubicBezier (x x1 y1 x2 y2 : ℚ) : ℚ :=
  let cx := 3 * x1
  let bx := 3 * (x2 - x1) - cx
  let ax := 1 - cx - bx
  let cy := 3 * y1
  let byc := 3 * (y2 - y1) - cy
  let ay := 1 - cy - byc
  let t0 := bezierNewton 8 ax bx cx x x
  let t := max 0 (min 1 t0)
  ((ay * t + byc) * t + cy) * t

/-- `apply_easing` (module-level, src/transition.rs): the seven built-in
curves, parametric `cubic_bezier(...)`, and linear fallback for anything
else.  Progress is the (rational) value `elapsed/duration`; the result is
real because `sine` uses `cos`. -/
noncomputable def applyEasing (t : ℚ) (easing : String) : ℝ :=
  if easing = "linear" then (t : ℝ)
  else if easing = "ease_in" then ((t * t : ℚ) : ℝ)
  else if easing = "ease_out" then ((t * (2 - t) : ℚ) : ℝ)
  else if easing = "ease_in_out" then
    ((if t < 1 / 2 then 2 * t * t else (4 - 2 * t) * t - 1 : ℚ) : ℝ)
  else if easing = "sine" then (1 - Real.cos (t * Real.pi)) / 2
  else if easing = "smooth" then ((t * t * (3 - 2 * t) : ℚ) : ℝ)
  else if easing = "smoother" then ((t * t * t * (t * (6 * t - 15) + 10) : ℚ) : ℝ)
  else
    match parseCubicBezier easing with
    | some (x1, y1, x2, y2) => ((evalCubicBezier t x1 y1 x2 y2 : ℚ) : ℝ)
    | none => (t : ℝ)

/-! ## Transition engine (src/transition.rs) -/

/-- The two `config.transition` fields the engine reads. -/
structure TransitionConfig where
  durationMinutes : ℕ
  easing : String
deriving DecidableEq

/-- `Duration::from_secs(60 * duration_minutes)`, in seconds. -/
def TransitionConfig.durationSecs (c : TransitionConfig) : ℚ :=
  60 * c.durationMinutes

/-- The `Transition` struct.  The wall-clock / monotonic timestamps are not
modelled; instead each call takes the elapsed time it observes (the value
of `phase_start_time.elapsed()` resp. the `elapsed` argument) as an input. -/
structure Transition where
  config : TransitionConfig
  currentTemperature : ℕ
  targetTemperature : ℕ
  transitionStartTemp : ℕ
  inTransition : Bool
deriving DecidableEq

/-- `Transition::new_with_temp`. -/
def Transition.newWithTemp (config : TransitionConfig) (initialTemp : ℕ) : Transition :=
  ⟨config, initialTemp, initialTemp, initialTemp, false⟩

/-- `Transition::update`.  `elapsed` models `phase_start_time.elapsed()` as
read after the possible rebase (line 62 of src/transition.rs); an arbitrary
nonnegative value is allowed, which over-approximates the near-zero elapsed
observed right after a rebase. -/
noncomputable def Transition.update (s : Transition) (targetTemp : ℕ) (elapsed : ℚ) :
    Transition :=
  let dur := s.config.durationSecs
  if dur = 0 then
    { s with currentTemperature := targetTemp, targetTemperature := targetTemp,
             transitionStartTemp := targetTemp, inTransition := false }
  else if s.currentTemperature = targetTemp then
    { s with targetTemperature := targetTemp, transitionStartTemp := targetTemp,
             inTransition := false }
  else
    let s1 :=
      if s.inTransition = false ∨ s.targetTemperature ≠ targetTemp then
        { s with transitionStartTemp := s.currentTemperature,
                 targetTemperature := targetTemp, inTransition := true }
      else s
    if dur ≤ elapsed then
      { s1 with currentTemperature := s1.targetTemperature, inTransition := false }
    else
      let progress := elapsed / dur
      let eased := applyEasing progress s.config.easing
      let tempRange := wrapI16 (toI16 s1.targetTemperature - toI16 s1.transitionStartTemp)
      let tempDelta := satI16R ((tempRange : ℝ) * eased)
      { s1 with currentTemperature := toU16 (toI16 s1.transitionStartTemp + tempDelta) }

/-- `Transition::align_with_schedule`. -/
noncomputable def Transition.alignWithSchedule (s : Transition)
    (startTemp targetTemp : ℕ) (elapsed : ℚ) : Transition :=
  let dur := s.config.durationSecs
  if dur = 0 then
    { s with currentTemperature := targetTemp, targetTemperature := targetTemp,
             transitionStartTemp := startTemp, inTransition := false }
  else
    let clampedElapsed := if dur < elapsed then dur else elapsed
    let progress := clampedElapsed / dur
    let eased := applyEasing progress s.config.easing
    let tempRange := wrapI16 (toI16 targetTemp - toI16 startTemp)
    let tempDelta := satI16R ((tempRange : ℝ) * eased)
    { s with currentTemperature := toU16 (toI16 startTemp + tempDelta),
             transitionStartTemp := startTemp, targetTemperature := targetTemp,
             inTransition := decide (clampedElapsed < dur) }

/-- Engine states reachable from `new_with_temp` by `update` /
`align_with_schedule` calls with u16 temperature arguments and nonnegative
elapsed times. -/
inductive Transition.Reachable : Transition → Prop
  | init (config : TransitionConfig) (t : ℕ) (ht : t < 65536) :
      Transition.Reachable (Transition.newWithTemp config t)
  | step_update (s : Transition) (t : ℕ) (elapsed : ℚ)
      (hs : Transition.Reachable s) (ht : t < 65536) (he : 0 ≤ elapsed) :
      Transition.Reachable (s.update t elapsed)
  | step_align (s : Transition) (st tg : ℕ) (elapsed : ℚ)
      (hs : Transition.Reachable s) (h1 : st < 65536) (h2 : tg < 65536)
      (he : 0 ≤ elapsed) :
      Transition.Reachable (s.alignWithSchedule st tg elapsed)

/-! ## Persisted state (src/state.rs) -/

/-- The persisted `State` record. -/
structure State where
  transitionStartTemp : ℕ
  transitionStartTimestamp : ℕ
  elapsedSeconds : ℕ
  targetTemp : ℕ
deriving DecidableEq

/-- The private `apply_easing` of src/state.rs (note: it has cases only for
`ease_in`, `ease_out` and `ease_in_out`; everything else, including the
engine's `sine`/`smooth`/`smoother`/`cubic_bezier`, falls through to
linear). -/
def stateApplyEasing (t : ℚ) (easing : String) : ℚ :=
  if easing = "ease_in" then t * t
  else if easing = "ease_out" then t * (2 - t)
  else if easing = "ease_in_out" then
    (if t < 1 / 2 then 2 * t * t else -1 + (4 - 2 * t) * t)
  else t

/-- `calculate_temperature_from_state`. -/
def calculateTemperatureFromState (st : State) (transitionDurationSeconds : ℕ)
    (easing : String) : ℕ :=
  if transitionDurationSeconds ≤ st.elapsedSeconds then st.targetTemp
  else
    let progress : ℚ := (st.elapsedSeconds : ℚ) / (transitionDurationSeconds : ℚ)
    let eased := stateApplyEasing progress easing
    let tempRange := wrapI16 (toI16 st.targetTemp - toI16 st.transitionStartTemp)
    let tempDelta := satI16Q ((tempRange : ℚ) * eased)
    toU16 (toI16 st.transitionStartTemp + tempDelta)

/-- `expand_path`: `~`-prefixed paths are resolved against the home
directory by slicing the path at byte index 2.  `Except.error` models the
panic that `&path[2..]` raises when byte 2 is out of bounds or not a char
boundary (the closure only runs when a home directory exists). -/
def expandPath (home : Option String) (path : String) : Except Unit (Option String) :=
  match path.data with
  | '~' :: rest =>
    match home with
    | none => .ok none
    | some h =>
      match rest with
      | c :: rest2 =>
        if c.utf8Size = 1 then .ok (some (h ++ "/" ++ String.mk rest2))
        else .error ()
      | [] => .error ()
  | _ => .ok (some path)

/-- `State::load`, with the filesystem read and TOML parse as oracles
(`none` models `Err(..).ok()` as well as a missing file). -/
def State.load (home : Option String) (readFile : String → Option String)
    (parseToml : String → Option State) (path : String) :
    Except Unit (Option State) :=
  match expandPath home path with
  | .error e => .error e
  | .ok none => .ok none
  | .ok (some p) =>
    .ok (match readFile p with
         | none => none
         | some content => parseToml content)

/-- Outcome of `fs::create_dir_all` + `fs::write`, as seen by `save`. -/
inductive IoResult
  | ok
  | err
deriving DecidableEq

/-- `State::save`: path expansion failure becomes an `InvalidInput` error,
directory creation and writing are an oracle; serialisation
(`unwrap_or_default`) never fails. -/
def State.save (home : Option String) (writeResult : String → IoResult)
    (_st : State) (path : String) : Except Unit IoResult :=
  match expandPath home path with
  | .error e => .error e
  | .ok none => .ok .err
  | .ok (some p) => .ok (writeResult p)

/-! ## Phase resolver (src/scheduler.rs) -/

/-- The four phases. -/
inductive Phase
  | day
  | transitioningToNight
  | night
  | transitioningToDay
deriving DecidableEq

/-- Scheduling mode. -/
inductive Mode
  | auto
  | fixed
deriving DecidableEq

/-- The `Schedule` struct: mode, parsed wake/bedtime seconds-of-day, the
transition duration and the two target temperatures.  The coordinates are
replaced by the solar oracle passed to each operation. -/
structure Schedule where
  mode : Mode
  wakeupTime : ℤ
  bedtimeTime : ℤ
  durationMinutes : ℕ
  tempDay : ℕ
  tempNight : ℕ
deriving DecidableEq

/-- Calendar-day number of an instant (`DateTime::date_naive`). -/
def dayOf (t : ℤ) : ℤ := t / 86400

/-- Seconds-of-day of an instant (`DateTime::time`). -/
def todOf (t : ℤ) : ℤ := t % 86400

/-- chrono's wrapping `NaiveTime ± Duration` arithmetic. -/
def wrapTod (x : ℤ) : ℤ := x % 86400

/-- `Schedule::auto_phase`, with that day's sunrise/sunset instants already
computed. -/
def autoPhase (sunrise sunset : ℤ) (durMin : ℕ) (now : ℤ) : Phase :=
  let d : ℤ := 60 * durMin
  if sunset + d ≤ now then .night
  else if sunset ≤ now then .transitioningToNight
  else if sunrise + d ≤ now then .day
  else if sunrise ≤ now then .transitioningToDay
  else .night

/-- `Schedule::fixed_phase` on the seconds-of-day of `now`. -/
def fixedPhase (wakeup bedtime : ℤ) (durMin : ℕ) (nowTod : ℤ) : Phase :=
  let d : ℤ := 60 * durMin
  let transitionStart := wrapTod (bedtime - d)
  let transitionEnd := wrapTod (wakeup + d)
  if wakeup ≤ nowTod ∧ nowTod < transitionEnd then .transitioningToDay
  else if transitionEnd ≤ nowTod ∧ nowTod < transitionStart then .day
  else if transitionStart ≤ nowTod ∧ nowTod < bedtime then .transitioningToNight
  else .night

/-- `Schedule::current_phase_at`; `sr`/`ss` give the sunrise/sunset instant
of each calendar day (the external solar computation). -/
def currentPhaseAt (sr ss : ℤ → ℤ) (c : Schedule) (now : ℤ) : Phase :=
  match c.mode with
  | .auto => autoPhase (sr (dayOf now)) (ss (dayOf now)) c.durationMinutes now
  | .fixed => fixedPhase c.wakeupTime c.bedtimeTime c.durationMinutes (todOf now)

/-- The `TransitionWindow` struct. -/
structure TransitionWindow where
  start : ℤ
  startTemp : ℕ
  targetTemp : ℕ
deriving DecidableEq

/-- `Schedule::auto_transition_window`. -/
def autoTransitionWindow (sunrise sunset : ℤ) (c : Schedule) (now : ℤ)
    (d : ℤ) : Option TransitionWindow :=
  if sunset ≤ now ∧ now < sunset + d then
    some ⟨sunset, c.tempDay, c.tempNight⟩
  else if sunrise ≤ now ∧ now < sunrise + d then
    some ⟨sunrise, c.tempNight, c.tempDay⟩
  else none

/-- `Schedule::fixed_transition_window` (today's wake/bedtime as full
instants; `local_datetime` is total in the fixed-offset model). -/
def fixedTransitionWindow (c : Schedule) (now : ℤ) (d : ℤ) :
    Option TransitionWindow :=
  let date := dayOf now
  let wakeupDt := 86400 * date + c.wakeupTime
  let bedtimeDt := 86400 * date + c.bedtimeTime
  let wakeupEnd := wakeupDt + d
  if wakeupDt ≤ now ∧ now < wakeupEnd then
    some ⟨wakeupDt, c.tempNight, c.tempDay⟩
  else
    let bedtimeStart := bedtimeDt - d
    if bedtimeStart ≤ now ∧ now < bedtimeDt then
      some ⟨bedtimeStart, c.tempDay, c.tempNight⟩
    else none

/-- `Schedule::transition_window_at`. -/
def transitionWindowAt (sr ss : ℤ → ℤ) (c : Schedule) (now : ℤ) :
    Option TransitionWindow :=
  let d : ℤ := 60 * c.durationMinutes
  if d = 0 then none
  else
    match c.mode with
    | .auto => autoTransitionWindow (sr (dayOf now)) (ss (dayOf now)) c now d
    | .fixed => fixedTransitionWindow c now d

/-- `Schedule::auto_next_transition_start` (tomorrow's noon has calendar
day `dayOf now + 1`, so the recomputed solar day is `dayOf now + 1`). -/
def autoNextTransitionStart (sr ss : ℤ → ℤ) (c : Schedule) (now : ℤ) :
    Option ℤ :=
  let sunrise := sr (dayOf now)
  let sunset := ss (dayOf now)
  let d : ℤ := 60 * c.durationMinutes
  match autoPhase sunrise sunset c.durationMinutes now with
  | .day => some sunset
  | .night =>
    if sunset + d ≤ now then some (sr (dayOf now + 1))
    else some sunrise
  | _ => none

/-- `Schedule::fixed_next_transition_start`. -/
def fixedNextTransitionStart (c : Schedule) (now : ℤ) : Option ℤ :=
  let date := dayOf now
  let d : ℤ := 60 * c.durationMinutes
  match fixedPhase c.wakeupTime c.bedtimeTime c.durationMinutes (todOf now) with
  | .day => some (86400 * date + c.bedtimeTime - d)
  | .night =>
    if c.bedtimeTime ≤ todOf now then some (86400 * (date + 1) + c.wakeupTime)
    else some (86400 * date + c.wakeupTime)
  | _ => none

/-- `Schedule::next_transition_start`. -/
def nextTransitionStart (sr ss : ℤ → ℤ) (c : Schedule) (now : ℤ) : Option ℤ :=
  match c.mode with
  | .auto => autoNextTransitionStart sr ss c now
  | .fixed => fixedNextTransitionStart c now

/-! ## Bridging and evaluation lemmas -/

theorem truncR_ratCast (q : ℚ) : truncR (q : ℝ) = truncQ q := by
  unfold truncR truncQ
  by_cases h : 0 ≤ q
  · rw [if_pos (by exact_mod_cast h), if_pos h, Rat.floor_cast]
  · rw [if_neg (by exact_mod_cast h), if_neg h, Rat.ceil_cast]

theorem satI16R_ratCast (q : ℚ) : satI16R (q : ℝ) = satI16Q q := by
  unfold satI16R satI16Q
  rw [truncR_ratCast]

theorem truncR_intCast (z : ℤ) : truncR (z : ℝ) = z := by
  unfold truncR
  by_cases h : 0 ≤ z
  · rw [if_pos (by exact_mod_cast h), Int.floor_intCast]
  · rw [if_neg (by exact_mod_cast h), Int.ceil_intCast]

theorem satI16R_intCast (z : ℤ) (h1 : -32768 ≤ z) (h2 : z ≤ 32767) :
    satI16R (z : ℝ) = z := by
  unfold satI16R
  rw [truncR_intCast]
  omega

theorem toI16_of_lt (n : ℕ) (h : n < 32768) : toI16 n = n := by
  unfold toI16
  split <;> omega

theorem wrapI16_of_small (z : ℤ) (h1 : -32768 ≤ z) (h2 : z < 32768) :
    wrapI16 z = z := by
  unfold wrapI16
  omega

theorem toU16_of_range (z : ℤ) (h1 : 0 ≤ z) (h2 : z < 65536) :
    toU16 z = z.toNat := by
  unfold toU16
  omega

/-- The wrap-around casts cancel: adding the wrapped i16 difference to the
start gives back the target, for any u16 target. -/
theorem toU16_add_wrap (st tg : ℕ) (h : tg < 65536) :
    toU16 (toI16 st + wrapI16 (toI16 tg - toI16 st)) = tg := by
  unfold toU16 toI16 wrapI16
  split <;> split <;> omega

theorem applyEasing_eq_linear (t : ℚ) : applyEasing t "linear" = (t : ℝ) := by
  unfold applyEasing
  rw [if_pos rfl]

theorem applyEasing_eq_ease_in (t : ℚ) :
    applyEasing t "ease_in" = ((t * t : ℚ) : ℝ) := by
  unfold applyEasing
  rw [if_neg (by decide), if_pos rfl]

theorem applyEasing_eq_ease_out (t : ℚ) :
    applyEasing t "ease_out" = ((t * (2 - t) : ℚ) : ℝ) := by
  unfold applyEasing
  rw [if_neg (by decide), if_neg (by decide), if_pos rfl]

theorem applyEasing_eq_ease_in_out (t : ℚ) :
    applyEasing t "ease_in_out" =
      ((if t < 1 / 2 then 2 * t * t else (4 - 2 * t) * t - 1 : ℚ) : ℝ) := by
  unfold applyEasing
  rw [if_neg (by decide), if_neg (by decide), if_neg (by decide), if_pos rfl]

theorem applyEasing_eq_sine (t : ℚ) :
    applyEasing t "sine" = (1 - Real.cos (t * Real.pi)) / 2 := by
  unfold applyEasing
  rw [if_neg (by decide), if_neg (by decide), if_neg (by decide),
    if_neg (by decide), if_pos rfl]

theorem applyEasing_eq_smooth (t : ℚ) :
    applyEasing t "smooth" = ((t * t * (3 - 2 * t) : ℚ) : ℝ) := by
  unfold applyEasing
  rw [if_neg (by decide), if_neg (by decide), if_neg (by decide),
    if_neg (by decide), if_neg (by decide), if_pos rfl]

theorem applyEasing_eq_smoother (t : ℚ) :
    applyEasing t "smoother" =
      ((t * t * t * (t * (6 * t - 15) + 10) : ℚ) : ℝ) := by
  unfold applyEasing
  rw [if_neg (by decide), if_neg (by decide), if_neg (by decide),
    if_neg (by decide), if_neg (by decide), if_neg (by decide), if_pos rfl]

theorem applyEasing_eq_fallback (t : ℚ) (e : String)
    (h1 : e ≠ "linear") (h2 : e ≠ "ease_in") (h3 : e ≠ "ease_out")
    (h4 : e ≠ "ease_in_out") (h5 : e ≠ "sine") (h6 : e ≠ "smooth")
    (h7 : e ≠ "smoother") :
    applyEasing t e =
      match parseCubicBezier e with
      | some (x1, y1, x2, y2) => ((evalCubicBezier t x1 y1 x2 y2 : ℚ) : ℝ)
      | none => (t : ℝ) := by
  unfold applyEasing
  rw [if_neg h1, if_neg h2, if_neg h3, if_neg h4, if_neg h5, if_neg h6,
    if_neg h7]

/-- The Newton loop never moves off a point that already solves the
x-equation. -/
theorem bezierNewton_fix (n : ℕ) (ax bx cx x t : ℚ)
    (h : ((ax * t + bx) * t + cx) * t = x) :
    bezierNewton n ax bx cx x t = t := by
  induction n with
  | zero => rfl
  | succ n ih =>
    unfold bezierNewton
    dsimp only
    split
    · rfl
    · rw [h, sub_self, zero_div, sub_zero, ih]

theorem evalCubicBezier_zero (x1 y1 x2 y2 : ℚ) :
    evalCubicBezier 0 x1 y1 x2 y2 = 0 := by
  unfold evalCubicBezier
  dsimp only
  rw [bezierNewton_fix _ _ _ _ _ _ (by ring)]
  norm_num

theorem evalCubicBezier_one (x1 y1 x2 y2 : ℚ) :
    evalCubicBezier 1 x1 y1 x2 y2 = 1 := by
  unfold evalCubicBezier
  dsimp only
  rw [bezierNewton_fix _ _ _ _ _ _ (by ring)]
  norm_num

/-- Every easing identifier maps progress 0 to 0. -/
theorem applyEasing_zero (e : String) : applyEasing 0 e = 0 := by
  by_cases h1 : e = "linear"
  · subst h1; rw [applyEasing_eq_linear]; norm_num
  by_cases h2 : e = "ease_in"
  · subst h2; rw [applyEasing_eq_ease_in]; norm_num
  by_cases h3 : e = "ease_out"
  · subst h3; rw [applyEasing_eq_ease_out]; norm_num
  by_cases h4 : e = "ease_in_out"
  · subst h4; rw [applyEasing_eq_ease_in_out]; norm_num
  by_cases h5 : e = "sine"
  · subst h5; rw [applyEasing_eq_sine]; norm_num
  by_cases h6 : e = "smooth"
  · subst h6; rw [applyEasing_eq_smooth]; norm_num
  by_cases h7 : e = "smoother"
  · subst h7; rw [applyEasing_eq_smoother]; norm_num
  rw [applyEasing_eq_fallback 0 e h1 h2 h3 h4 h5 h6 h7]
  rcases hp : parseCubicBezier e with _ | ⟨x1, y1, x2, y2⟩
  · norm_num
  · simp only [evalCubicBezier_zero]
    norm_num

/-- Every easing identifier maps progress 1 to 1 (exactly, in the
idealised arithmetic). -/
theorem applyEasing_one (e : String) : applyEasing 1 e = 1 := by
  by_cases h1 : e = "linear"
  · subst h1; rw [applyEasing_eq_linear]; norm_num
  by_cases h2 : e = "ease_in"
  · subst h2; rw [applyEasing_eq_ease_in]; norm_num
  by_cases h3 : e = "ease_out"
  · subst h3; rw [applyEasing_eq_ease_out]; norm_num
  by_cases h4 : e = "ease_in_out"
  · subst h4; rw [applyEasing_eq_ease_in_out]; norm_num
  by_cases h5 : e = "sine"
  · subst h5; rw [applyEasing_eq_sine]
    rw [show ((1 : ℚ) : ℝ) * Real.pi = Real.pi by norm_num, Real.cos_pi]
    norm_num
  by_cases h6 : e = "smooth"
  · subst h6; rw [applyEasing_eq_smooth]; norm_num
  by_cases h7 : e = "smoother"
  · subst h7; rw [applyEasing_eq_smoother]; norm_num
  rw [applyEasing_eq_fallback 1 e h1 h2 h3 h4 h5 h6 h7]
  rcases hp : parseCubicBezier e with _ | ⟨x1, y1, x2, y2⟩
  · norm_num
  · simp only [evalCubicBezier_one]
    norm_num

/-- The seven built-in easing curve names. -/
def builtinEasings : List String :=
  ["linear", "ease_in", "ease_out", "ease_in_out", "sine", "smooth", "smoother"]

/-- Every built-in curve maps `[0,1]` into `[0,1]`. -/
theorem applyEasing_bounds (e : String) (he : e ∈ builtinEasings) (t : ℚ)
    (ht0 : 0 ≤ t) (ht1 : t ≤ 1) :
    0 ≤ applyEasing t e ∧ applyEasing t e ≤ 1 := by
  simp only [builtinEasings, List.mem_cons, List.not_mem_nil, or_false] at he
  rcases he with h | h | h | h | h | h | h <;> subst h
  · rw [applyEasing_eq_linear]
    exact ⟨by exact_mod_cast ht0, by exact_mod_cast ht1⟩
  · rw [applyEasing_eq_ease_in]
    have hlo : (0 : ℚ) ≤ t * t := mul_nonneg ht0 ht0
    have hhi : t * t ≤ 1 := by nlinarith
    exact ⟨by exact_mod_cast hlo, by exact_mod_cast hhi⟩
  · rw [applyEasing_eq_ease_out]
    have hlo : (0 : ℚ) ≤ t * (2 - t) := by nlinarith
    have hhi : t * (2 - t) ≤ 1 := by nlinarith [sq_nonneg (1 - t)]
    exact ⟨by exact_mod_cast hlo, by exact_mod_cast hhi⟩
  · rw [applyEasing_eq_ease_in_out]
    by_cases hh : t < 1 / 2
    · rw [if_pos hh]
      have hlo : (0 : ℚ) ≤ 2 * t * t := by nlinarith
      have hhi : 2 * t * t ≤ 1 := by nlinarith
      exact ⟨by exact_mod_cast hlo, by exact_mod_cast hhi⟩
    · rw [if_neg hh]
      push_neg at hh
      have hlo : (0 : ℚ) ≤ (4 - 2 * t) * t - 1 := by nlinarith [sq_nonneg (2 * t - 1)]
      have hhi : (4 - 2 * t) * t - 1 ≤ 1 := by nlinarith [sq_nonneg (t - 1)]
      exact ⟨by exact_mod_cast hlo, by exact_mod_cast hhi⟩
  · rw [applyEasing_eq_sine]
    have hc1 := Real.cos_le_one ((t : ℝ) * Real.pi)
    have hc2 := Real.neg_one_le_cos ((t : ℝ) * Real.pi)
    constructor <;> linarith
  · rw [applyEasing_eq_smooth]
    have hlo : (0 : ℚ) ≤ t * t * (3 - 2 * t) := by nlinarith [mul_nonneg ht0 ht0]
    have hhi : t * t * (3 - 2 * t) ≤ 1 := by
      nlinarith [mul_nonneg (sq_nonneg (1 - t)) (by linarith : (0 : ℚ) ≤ 1 + 2 * t)]
    exact ⟨by exact_mod_cast hlo, by exact_mod_cast hhi⟩
  · rw [applyEasing_eq_smoother]
    have h3 : (0 : ℚ) ≤ t ^ 3 := by positivity
    have hq : (0 : ℚ) ≤ 6 * t ^ 2 - 15 * t + 10 := by nlinarith [sq_nonneg (4 * t - 5)]
    have hc : (0 : ℚ) ≤ (1 - t) ^ 3 := pow_nonneg (by linarith) 3
    have hq2 : (0 : ℚ) ≤ 6 * t ^ 2 + 3 * t + 1 := by positivity
    have hlo : (0 : ℚ) ≤ t * t * t * (t * (6 * t - 15) + 10) := by
      nlinarith [mul_nonneg h3 hq]
    have hhi : t * t * t * (t * (6 * t - 15) + 10) ≤ 1 := by
      nlinarith [mul_nonneg hc hq2]
    exact ⟨by exact_mod_cast hlo, by exact_mod_cast hhi⟩

/-- Truncation toward zero of `D·x` for `x ∈ [0,1]` stays between `0`
and `D`. -/
theorem truncR_mul_bounds (D : ℤ) (x : ℝ) (hx0 : 0 ≤ x) (hx1 : x ≤ 1) :
    min D 0 ≤ truncR ((D : ℝ) * x) ∧ truncR ((D : ℝ) * x) ≤ max D 0 := by
  rcases le_or_lt 0 D with hD | hD
  · have hDR : (0 : ℝ) ≤ (D : ℝ) := by exact_mod_cast hD
    have h0 : (0 : ℝ) ≤ (D : ℝ) * x := mul_nonneg hDR hx0
    have h1 : (D : ℝ) * x ≤ (D : ℝ) := by nlinarith
    unfold truncR
    rw [if_pos h0]
    have hf0 : (0 : ℤ) ≤ ⌊(D : ℝ) * x⌋ := Int.le_floor.mpr (by exact_mod_cast h0)
    have hf1 : ⌊(D : ℝ) * x⌋ ≤ D := by
      have := Int.floor_mono h1
      rwa [Int.floor_intCast] at this
    omega
  · have hDR : (D : ℝ) ≤ 0 := by exact_mod_cast hD.le
    have h0 : (D : ℝ) * x ≤ 0 := mul_nonpos_of_nonpos_of_nonneg hDR hx0
    have h1 : (D : ℝ) ≤ (D : ℝ) * x := by nlinarith
    unfold truncR
    by_cases hz : 0 ≤ (D : ℝ) * x
    · rw [if_pos hz]
      have hf0 : D ≤ ⌊(D : ℝ) * x⌋ := by
        have := Int.floor_mono h1
        rwa [Int.floor_intCast] at this
      have hf1 : ⌊(D : ℝ) * x⌋ ≤ 0 := by
        have := Int.floor_mono h0
        rwa [Int.floor_zero] at this
      omega
    · rw [if_neg hz]
      have hf0 : D ≤ ⌈(D : ℝ) * x⌉ := by
        have := Int.ceil_mono h1
        rwa [Int.ceil_intCast] at this
      have hf1 : ⌈(D : ℝ) * x⌉ ≤ 0 := by
        have := Int.ceil_mono h0
        rwa [Int.ceil_zero] at this
      omega

/-- The interpolation formula
`(start as i16 + ((target as i16 - start as i16) as f64 * eased) as i16) as u16`
stays between start and target whenever the eased progress lies in `[0,1]`
and both temperatures are below `2^15`. -/
theorem interp_in_range (s g : ℕ) (hs : s < 32768) (hg : g < 32768)
    (x : ℝ) (hx0 : 0 ≤ x) (hx1 : x ≤ 1) :
    min s g ≤ toU16 (toI16 s + satI16R ((wrapI16 (toI16 g - toI16 s) : ℝ) * x)) ∧
      toU16 (toI16 s + satI16R ((wrapI16 (toI16 g - toI16 s) : ℝ) * x)) ≤ max s g := by
  rw [toI16_of_lt s hs, toI16_of_lt g hg, wrapI16_of_small _ (by omega) (by omega)]
  have htr := truncR_mul_bounds ((g : ℤ) - s) x hx0 hx1
  unfold satI16R
  set v := truncR ((((g : ℤ) - s : ℤ) : ℝ) * x) with hv
  have hclamp : max (-32768) (min 32767 v) = v := by omega
  rw [hclamp]
  unfold toU16
  omega

theorem truncQ_eval_neg (q : ℚ) (h : q < 0) : truncQ q = ⌈q⌉ := by
  unfold truncQ
  rw [if_neg (by linarith)]

theorem truncQ_eval_nonneg (q : ℚ) (h : 0 ≤ q) : truncQ q = ⌊q⌋ := by
  unfold truncQ
  rw [if_pos h]

theorem wrapI16_mem (z : ℤ) : -32768 ≤ wrapI16 z ∧ wrapI16 z ≤ 32767 := by
  unfold wrapI16
  omega

theorem parseFloatChars_quarter : parseFloatChars "0.25".data = some (1 / 4) := by
  have h : scanFloat (trimChars "0.25".data) = some (false, 0, 25, 2, false, 0) := by
    decide
  unfold parseFloatChars
  rw [h]
  simp only [Option.map]
  norm_num [floatVal]

theorem parseFloatChars_two : parseFloatChars "2.0".data = some 2 := by
  have h : scanFloat (trimChars "2.0".data) = some (false, 2, 0, 1, false, 0) := by
    decide
  unfold parseFloatChars
  rw [h]
  simp only [Option.map]
  norm_num [floatVal]

theorem parseFloatChars_threeQuarters : parseFloatChars "0.75".data = some (3 / 4) := by
  have h : scanFloat (trimChars "0.75".data) = some (false, 0, 75, 2, false, 0) := by
    decide
  unfold parseFloatChars
  rw [h]
  simp only [Option.map]
  norm_num [floatVal]

theorem parseCubicBezier_overshoot :
    parseCubicBezier "cubic_bezier(0.25,2.0,0.75,2.0)" = some (1 / 4, 2, 3 / 4, 2) := by
  have h1 : splitBezierArgs "cubic_bezier(0.25,2.0,0.75,2.0)" =
      some ("0.25".data, "2.0".data, "0.75".data, "2.0".data) := by decide
  unfold parseCubicBezier
  rw [h1]
  dsimp only
  rw [parseFloatChars_quarter, parseFloatChars_two, parseFloatChars_threeQuarters]
  rfl

/-! ## Claim theorems -/

/-- C1: the claim that `calculate_temperature_from_state` and
`align_with_schedule` agree for every easing identifier is right (the spec
calls it the resume-consistency property and demands bit-identical
interpolation), but the code violates it: the private `apply_easing` in
src/state.rs lacks the `sine`/`smooth`/`smoother`/`cubic_bezier` cases and
silently treats them as linear.  At start 6500, target 1500, duration
3600 s, elapsed 900 s, easing `smooth`, the state path yields 5250 while
the engine path yields 5719. -/
theorem c1_resume_divergence_at_smooth :
    calculateTemperatureFromState ⟨6500, 0, 900, 1500⟩ 3600 "smooth" = 5250 ∧
    ((Transition.newWithTemp ⟨60, "smooth"⟩ 6500).alignWithSchedule 6500 1500
        900).currentTemperature = 5719 ∧
    (5250 : ℕ) ≠ 5719 := by
  refine ⟨?_, ?_, by decide⟩
  · unfold calculateTemperatureFromState
    rw [if_neg (by norm_num)]
    dsimp only
    unfold stateApplyEasing
    rw [if_neg (by decide), if_neg (by decide), if_neg (by decide)]
    rw [show toI16 1500 = 1500 from toI16_of_lt _ (by norm_num),
        show toI16 6500 = 6500 from toI16_of_lt _ (by norm_num),
        show wrapI16 (1500 - 6500) = -5000 from by unfold wrapI16; decide]
    rw [show ((-5000 : ℤ) : ℚ) * (((900 : ℕ) : ℚ) / ((3600 : ℕ) : ℚ)) = -(1250 : ℚ) by
      push_cast; norm_num]
    rw [show satI16Q (-(1250 : ℚ)) = -1250 from by
      unfold satI16Q
      rw [truncQ_eval_neg _ (by norm_num), Int.ceil_neg]
      norm_num]
    unfold toU16
    decide
  · unfold Transition.newWithTemp Transition.alignWithSchedule
    rw [if_neg (by unfold TransitionConfig.durationSecs; norm_num)]
    dsimp only
    rw [if_neg (by unfold TransitionConfig.durationSecs; norm_num)]
    rw [show (900 : ℚ) / TransitionConfig.durationSecs ⟨60, "smooth"⟩ = 1 / 4 from by
      unfold TransitionConfig.durationSecs; norm_num]
    rw [applyEasing_eq_smooth]
    rw [show ((1 : ℚ) / 4 * (1 / 4) * (3 - 2 * (1 / 4)) : ℚ) = 5 / 32 by norm_num]
    rw [show toI16 1500 = 1500 from toI16_of_lt _ (by norm_num),
        show toI16 6500 = 6500 from toI16_of_lt _ (by norm_num),
        show wrapI16 (1500 - 6500) = -5000 from by unfold wrapI16; decide]
    rw [show ((-5000 : ℤ) : ℝ) * ((5 / 32 : ℚ) : ℝ) = ((-25000 / 32 : ℚ) : ℝ) by
      push_cast; norm_num]
    rw [satI16R_ratCast]
    rw [show satI16Q (-25000 / 32 : ℚ) = -781 from by
      unfold satI16Q
      rw [truncQ_eval_neg _ (by norm_num),
          show (-25000 / 32 : ℚ) = -(25000 / 32 : ℚ) by norm_num, Int.ceil_neg]
      norm_num]
    unfold toU16
    decide

/-- C8: every built-in curve satisfies f(0)=0 and f(1)=1 within 1e-9, the
Bézier solver satisfies both within 1e-2 for all control points, and the
three quoted midpoint values hold exactly. -/
theorem c8_boundary_and_midpoint_values :
    (|applyEasing 0 "linear"| ≤ 1 / 1000000000 ∧
      |applyEasing 1 "linear" - 1| ≤ 1 / 1000000000) ∧
    (|applyEasing 0 "ease_in"| ≤ 1 / 1000000000 ∧
      |applyEasing 1 "ease_in" - 1| ≤ 1 / 1000000000) ∧
    (|applyEasing 0 "ease_out"| ≤ 1 / 1000000000 ∧
      |applyEasing 1 "ease_out" - 1| ≤ 1 / 1000000000) ∧
    (|applyEasing 0 "ease_in_out"| ≤ 1 / 1000000000 ∧
      |applyEasing 1 "ease_in_out" - 1| ≤ 1 / 1000000000) ∧
    (|applyEasing 0 "sine"| ≤ 1 / 1000000000 ∧
      |applyEasing 1 "sine" - 1| ≤ 1 / 1000000000) ∧
    (|applyEasing 0 "smooth"| ≤ 1 / 1000000000 ∧
      |applyEasing 1 "smooth" - 1| ≤ 1 / 1000000000) ∧
    (|applyEasing 0 "smoother"| ≤ 1 / 1000000000 ∧
      |applyEasing 1 "smoother" - 1| ≤ 1 / 1000000000) ∧
    (∀ x1 y1 x2 y2 : ℚ, |evalCubicBezier 0 x1 y1 x2 y2| ≤ 1 / 100 ∧
      |evalCubicBezier 1 x1 y1 x2 y2 - 1| ≤ 1 / 100) ∧
    applyEasing (1 / 2) "ease_in_out" = (1 / 2 : ℝ) ∧
    applyEasing (1 / 4) "ease_in" = (1 / 16 : ℝ) ∧
    applyEasing (1 / 2) "ease_out" = (3 / 4 : ℝ) := by
  refine ⟨⟨?_, ?_⟩, ⟨?_, ?_⟩, ⟨?_, ?_⟩, ⟨?_, ?_⟩, ⟨?_, ?_⟩, ⟨?_, ?_⟩, ⟨?_, ?_⟩,
    ?_, ?_, ?_, ?_⟩ <;>
    first
      | (rw [applyEasing_zero]; norm_num)
      | (rw [applyEasing_one]; norm_num)
      | (intro x1 y1 x2 y2
         rw [evalCubicBezier_zero, evalCubicBezier_one]
         norm_num)
      | (rw [applyEasing_eq_ease_in_out, if_neg (by norm_num)]; push_cast; norm_num)
      | (rw [applyEasing_eq_ease_in]; push_cast; norm_num)
      | (rw [applyEasing_eq_ease_out]; push_cast; norm_num)

/-- C9: for every progress value and every identifier that is neither a
built-in curve name nor parseable as a `cubic_bezier(...)` descriptor,
`apply_easing` is the identity (linear fall-through). -/
theorem c9_unknown_easing_is_linear (t : ℚ) (e : String)
    (h1 : e ≠ "linear") (h2 : e ≠ "ease_in") (h3 : e ≠ "ease_out")
    (h4 : e ≠ "ease_in_out") (h5 : e ≠ "sine") (h6 : e ≠ "smooth")
    (h7 : e ≠ "smoother") (h8 : parseCubicBezier e = none) :
    applyEasing t e = (t : ℝ) := by
  rw [applyEasing_eq_fallback t e h1 h2 h3 h4 h5 h6 h7, h8]

/-- Witness for C9 at the malformed descriptor `cubic_bezier(invalid)`. -/
theorem c9_unknown_easing_is_linear_witness :
    (("cubic_bezier(invalid)" : String) ≠ "linear" ∧
      ("cubic_bezier(invalid)" : String) ≠ "ease_in" ∧
      ("cubic_bezier(invalid)" : String) ≠ "ease_out" ∧
      ("cubic_bezier(invalid)" : String) ≠ "ease_in_out" ∧
      ("cubic_bezier(invalid)" : String) ≠ "sine" ∧
      ("cubic_bezier(invalid)" : String) ≠ "smooth" ∧
      ("cubic_bezier(invalid)" : String) ≠ "smoother" ∧
      parseCubicBezier "cubic_bezier(invalid)" = none) ∧
    applyEasing (1 / 2) "cubic_bezier(invalid)" = ((1 / 2 : ℚ) : ℝ) :=
  ⟨⟨by decide, by decide, by decide, by decide, by decide, by decide, by decide,
     by decide⟩,
   c9_unknown_easing_is_linear (1 / 2) "cubic_bezier(invalid)" (by decide)
     (by decide) (by decide) (by decide) (by decide) (by decide) (by decide)
     (by decide)⟩

theorem Transition.align_current_of_elapsed_ge (s : Transition) (st tg : ℕ)
    (elapsed : ℚ) (htg : tg < 65536) (h : s.config.durationSecs ≤ elapsed) :
    (s.alignWithSchedule st tg elapsed).currentTemperature = tg := by
  unfold Transition.alignWithSchedule
  by_cases h1 : s.config.durationSecs = 0
  · rw [if_pos h1]
  · rw [if_neg h1]
    dsimp only
    by_cases h2 : s.config.durationSecs < elapsed
    · rw [if_pos h2]
      rw [div_self h1, applyEasing_one, mul_one,
        satI16R_intCast _ (wrapI16_mem _).1 (wrapI16_mem _).2, toU16_add_wrap st tg htg]
    · rw [if_neg h2]
      have hq : elapsed = s.config.durationSecs := le_antisymm (not_lt.mp h2) h
      rw [hq, div_self h1, applyEasing_one, mul_one,
        satI16R_intCast _ (wrapI16_mem _).1 (wrapI16_mem _).2, toU16_add_wrap st tg htg]

theorem Transition.update_current_of_elapsed_ge (s : Transition) (t : ℕ)
    (elapsed : ℚ) (h : s.config.durationSecs ≤ elapsed) :
    (s.update t elapsed).currentTemperature = t := by
  unfold Transition.update
  by_cases h1 : s.config.durationSecs = 0
  · rw [if_pos h1]
  · rw [if_neg h1]
    by_cases h2 : s.currentTemperature = t
    · rw [if_pos h2]
      exact h2
    · rw [if_neg h2]
      dsimp only
      by_cases h3 : s.inTransition = false ∨ s.targetTemperature ≠ t
      · rw [if_pos h3, if_pos h]
      · rw [if_neg h3, if_pos h]
        push_neg at h3
        exact h3.2

theorem Transition.update_idle_current_eq (s : Transition) (t : ℕ) (elapsed : ℚ)
    (hidle : (s.update t elapsed).inTransition = false) :
    (s.update t elapsed).currentTemperature = (s.update t elapsed).targetTemperature := by
  revert hidle
  unfold Transition.update
  by_cases h1 : s.config.durationSecs = 0
  · rw [if_pos h1]
    intro
    rfl
  · rw [if_neg h1]
    by_cases h2 : s.currentTemperature = t
    · rw [if_pos h2]
      intro
      exact h2
    · rw [if_neg h2]
      dsimp only
      by_cases h3 : s.inTransition = false ∨ s.targetTemperature ≠ t
      · rw [if_pos h3]
        by_cases h4 : s.config.durationSecs ≤ elapsed
        · rw [if_pos h4]
          intro
          rfl
        · rw [if_neg h4]
          intro hidle
          exact absurd hidle (by simp)
      · rw [if_neg h3]
        by_cases h4 : s.config.durationSecs ≤ elapsed
        · rw [if_pos h4]
          intro
          rfl
        · rw [if_neg h4]
          intro hidle
          exact absurd (Or.inl hidle) h3

theorem Transition.align_idle_current_eq (s : Transition) (st tg : ℕ)
    (elapsed : ℚ) (htg : tg < 65536)
    (hidle : (s.alignWithSchedule st tg elapsed).inTransition = false) :
    (s.alignWithSchedule st tg elapsed).currentTemperature =
      (s.alignWithSchedule st tg elapsed).targetTemperature := by
  revert hidle
  unfold Transition.alignWithSchedule
  by_cases h1 : s.config.durationSecs = 0
  · rw [if_pos h1]
    intro
    rfl
  · rw [if_neg h1]
    dsimp only
    by_cases h2 : s.config.durationSecs < elapsed
    · rw [if_pos h2]
      intro
      rw [div_self h1, applyEasing_one, mul_one,
        satI16R_intCast _ (wrapI16_mem _).1 (wrapI16_mem _).2, toU16_add_wrap st tg htg]
    · rw [if_neg h2]
      intro hidle
      simp only [decide_eq_false_iff_not, not_lt] at hidle
      have hq : elapsed = s.config.durationSecs := le_antisymm (not_lt.mp h2) hidle
      rw [hq, div_self h1, applyEasing_one, mul_one,
        satI16R_intCast _ (wrapI16_mem _).1 (wrapI16_mem _).2, toU16_add_wrap st tg htg]

theorem Transition.align_fields (s : Transition) (st tg : ℕ) (elapsed : ℚ) :
    (s.alignWithSchedule st tg elapsed).targetTemperature = tg ∧
    (s.alignWithSchedule st tg elapsed).transitionStartTemp = st := by
  unfold Transition.alignWithSchedule
  by_cases h1 : s.config.durationSecs = 0
  · rw [if_pos h1]
    exact ⟨rfl, rfl⟩
  · rw [if_neg h1]
    exact ⟨rfl, rfl⟩

theorem Transition.align_inTransition_eq (s : Transition) (st tg : ℕ)
    (elapsed : ℚ) (h1 : s.config.durationSecs ≠ 0) :
    (s.alignWithSchedule st tg elapsed).inTransition =
      decide ((if s.config.durationSecs < elapsed then s.config.durationSecs
        else elapsed) < s.config.durationSecs) := by
  unfold Transition.alignWithSchedule
  rw [if_neg h1]

theorem newWithTemp_durationSecs (dm : ℕ) (e : String) (t : ℕ) :
    (Transition.newWithTemp ⟨dm, e⟩ t).config.durationSecs = 60 * dm := rfl

/-- C7: for every elapsed at or beyond the configured duration the
interpolation is exactly the target: `calculate_temperature_from_state`
returns the record's target outright, and `update` and
`align_with_schedule` leave the current temperature at the target, for
every easing identifier. -/
theorem c7_completion_returns_target (st : State) (dur : ℕ) (e : String)
    (s s2 : Transition) (t targetT startT : ℕ) (elapsed elapsed2 : ℚ)
    (h1 : dur ≤ st.elapsedSeconds) (h2 : s.config.durationSecs ≤ elapsed)
    (h3 : s2.config.durationSecs ≤ elapsed2) (h4 : targetT < 65536) :
    calculateTemperatureFromState st dur e = st.targetTemp ∧
    (s.update t elapsed).currentTemperature = t ∧
    (s2.alignWithSchedule startT targetT elapsed2).currentTemperature = targetT := by
  refine ⟨?_, Transition.update_current_of_elapsed_ge s t elapsed h2,
    Transition.align_current_of_elapsed_ge s2 startT targetT elapsed2 h4 h3⟩
  unfold calculateTemperatureFromState
  rw [if_pos h1]

/-- Witness for C7: duration 3600 s, elapsed at/beyond it. -/
theorem c7_completion_returns_target_witness :
    (3600 ≤ (⟨6500, 0, 4000, 1500⟩ : State).elapsedSeconds ∧
      (Transition.newWithTemp ⟨60, "linear"⟩ 6500).config.durationSecs ≤ 3600 ∧
      (Transition.newWithTemp ⟨60, "linear"⟩ 2000).config.durationSecs ≤ 7200 ∧
      1500 < 65536) ∧
    (calculateTemperatureFromState ⟨6500, 0, 4000, 1500⟩ 3600 "linear" =
        (⟨6500, 0, 4000, 1500⟩ : State).targetTemp ∧
      ((Transition.newWithTemp ⟨60, "linear"⟩ 6500).update 1500 3600).currentTemperature = 1500 ∧
      ((Transition.newWithTemp ⟨60, "linear"⟩ 2000).alignWithSchedule 6500 1500
          7200).currentTemperature = 1500) :=
  ⟨⟨by norm_num, by rw [newWithTemp_durationSecs]; norm_num,
    by rw [newWithTemp_durationSecs]; norm_num, by norm_num⟩,
   c7_completion_returns_target ⟨6500, 0, 4000, 1500⟩ 3600 "linear"
     (Transition.newWithTemp ⟨60, "linear"⟩ 6500)
     (Transition.newWithTemp ⟨60, "linear"⟩ 2000) 1500 1500 6500 3600 7200
     (by norm_num) (by rw [newWithTemp_durationSecs]; norm_num)
     (by rw [newWithTemp_durationSecs]; norm_num) (by norm_num)⟩

/-- C2: the claimed idle invariant `current == target == transition_start_temp`
fails: a completed `align_with_schedule` (and a completed `update`) clears
`in_transition` and sets `current = target` but leaves
`transition_start_temp` at the transition's start value.  Here the reachable
state after `align_with_schedule(6500, 1500, 3600 s)` with a 60-minute
duration is idle with current = target = 1500 but transition_start_temp
= 6500. -/
theorem c2_counterexample_start_temp_stale :
    Transition.Reachable
      ((Transition.newWithTemp ⟨60, "linear"⟩ 6500).alignWithSchedule 6500 1500 3600) ∧
    ((Transition.newWithTemp ⟨60, "linear"⟩ 6500).alignWithSchedule 6500 1500
        3600).inTransition = false ∧
    ((Transition.newWithTemp ⟨60, "linear"⟩ 6500).alignWithSchedule 6500 1500
        3600).currentTemperature = 1500 ∧
    ((Transition.newWithTemp ⟨60, "linear"⟩ 6500).alignWithSchedule 6500 1500
        3600).targetTemperature = 1500 ∧
    ((Transition.newWithTemp ⟨60, "linear"⟩ 6500).alignWithSchedule 6500 1500
        3600).transitionStartTemp = 6500 ∧ (6500 : ℕ) ≠ 1500 := by
  refine ⟨Transition.Reachable.step_align _ _ _ _
      (Transition.Reachable.init _ 6500 (by norm_num)) (by norm_num) (by norm_num)
      (by norm_num),
    ?_, ?_, (Transition.align_fields _ _ _ _).1, (Transition.align_fields _ _ _ _).2,
    by norm_num⟩
  · rw [Transition.align_inTransition_eq _ _ _ _
      (by rw [newWithTemp_durationSecs]; norm_num)]
    rw [newWithTemp_durationSecs]
    norm_num
  · exact Transition.align_current_of_elapsed_ge _ 6500 1500 3600 (by norm_num)
      (by rw [newWithTemp_durationSecs]; norm_num)

/-- C2 (amended): in every state reachable from `new_with_temp` by
`update`/`align_with_schedule` calls, `in_transition = false` implies
`current == target` (the third claimed equality, with
`transition_start_temp`, does not hold — see the counterexample). -/
theorem c2_amended_idle_current_eq_target (s : Transition)
    (h : Transition.Reachable s) (hidle : s.inTransition = false) :
    s.currentTemperature = s.targetTemperature := by
  rcases h with ⟨c, t, ht⟩ | ⟨s0, t, elapsed, hs0, ht, he⟩ |
    ⟨s0, st, tg, elapsed, hs0, hst, htg, he⟩
  · rfl
  · exact Transition.update_idle_current_eq s0 t elapsed hidle
  · exact Transition.align_idle_current_eq s0 st tg elapsed htg hidle

/-- Witness for the amended C2 on a concrete reachable idle state. -/
theorem c2_amended_idle_current_eq_target_witness :
    (Transition.Reachable ((Transition.newWithTemp ⟨60, "linear"⟩ 6500).update 6500 0) ∧
      ((Transition.newWithTemp ⟨60, "linear"⟩ 6500).update 6500 0).inTransition = false) ∧
    ((Transition.newWithTemp ⟨60, "linear"⟩ 6500).update 6500 0).currentTemperature =
      ((Transition.newWithTemp ⟨60, "linear"⟩ 6500).update 6500 0).targetTemperature := by
  have hidle : ((Transition.newWithTemp ⟨60, "linear"⟩ 6500).update 6500 0).inTransition
      = false := by
    unfold Transition.update
    rw [if_neg (by rw [newWithTemp_durationSecs]; norm_num),
      if_pos (show (Transition.newWithTemp ⟨60, "linear"⟩ 6500).currentTemperature
        = 6500 from rfl)]
  have hr : Transition.Reachable
      ((Transition.newWithTemp ⟨60, "linear"⟩ 6500).update 6500 0) :=
    Transition.Reachable.step_update _ _ _
      (Transition.Reachable.init _ 6500 (by norm_num)) (by norm_num) le_rfl
  exact ⟨⟨hr, hidle⟩, c2_amended_idle_current_eq_target _ hr hidle⟩

/-- C3 (amended): while in transition after an `update` or
`align_with_schedule` call, the current temperature stays within
[min(transition_start_temp, target_temp), max(transition_start_temp,
target_temp)] — provided the easing is one of the seven built-in curves
(whose output stays in [0,1]; parametric `cubic_bezier` descriptors can
overshoot, see the counterexample) and the temperatures are below `2^15`
(so the wrapping i16 difference is exact). -/
theorem c3_amended_in_transition_range (s : Transition) (tg st tg2 : ℕ)
    (elapsed : ℚ) (he : s.config.easing ∈ builtinEasings)
    (hcur : s.currentTemperature < 32768) (hstart : s.transitionStartTemp < 32768)
    (htg : tg < 32768) (hst : st < 32768) (htg2 : tg2 < 32768) (hel : 0 ≤ elapsed) :
    ((s.update tg elapsed).inTransition = true →
      min (s.update tg elapsed).transitionStartTemp
          (s.update tg elapsed).targetTemperature ≤
        (s.update tg elapsed).currentTemperature ∧
      (s.update tg elapsed).currentTemperature ≤
        max (s.update tg elapsed).transitionStartTemp
          (s.update tg elapsed).targetTemperature) ∧
    ((s.alignWithSchedule st tg2 elapsed).inTransition = true →
      min (s.alignWithSchedule st tg2 elapsed).transitionStartTemp
          (s.alignWithSchedule st tg2 elapsed).targetTemperature ≤
        (s.alignWithSchedule st tg2 elapsed).currentTemperature ∧
      (s.alignWithSchedule st tg2 elapsed).currentTemperature ≤
        max (s.alignWithSchedule st tg2 elapsed).transitionStartTemp
          (s.alignWithSchedule st tg2 elapsed).targetTemperature) := by
  have hdnn : 0 ≤ s.config.durationSecs := by
    unfold TransitionConfig.durationSecs
    positivity
  constructor
  · unfold Transition.update
    by_cases h1 : s.config.durationSecs = 0
    · rw [if_pos h1]
      intro hf
      exact absurd hf (by simp)
    · rw [if_neg h1]
      have hdpos : 0 < s.config.durationSecs := lt_of_le_of_ne hdnn (Ne.symm h1)
      by_cases h2 : s.currentTemperature = tg
      · rw [if_pos h2]
        intro hf
        exact absurd hf (by simp)
      · rw [if_neg h2]
        dsimp only
        by_cases h3 : s.inTransition = false ∨ s.targetTemperature ≠ tg
        · rw [if_pos h3]
          by_cases h4 : s.config.durationSecs ≤ elapsed
          · rw [if_pos h4]
            intro hf
            exact absurd hf (by simp)
          · rw [if_neg h4]
            intro _
            dsimp only
            have hp0 : 0 ≤ elapsed / s.config.durationSecs := div_nonneg hel hdnn
            have hp1 : elapsed / s.config.durationSecs ≤ 1 := by
              rw [div_le_one hdpos]
              exact (not_le.mp h4).le
            obtain ⟨he0, he1⟩ := applyEasing_bounds _ he _ hp0 hp1
            exact interp_in_range s.currentTemperature tg hcur htg _ he0 he1
        · rw [if_neg h3]
          by_cases h4 : s.config.durationSecs ≤ elapsed
          · rw [if_pos h4]
            intro hf
            exact absurd hf (by simp)
          · rw [if_neg h4]
            intro _
            dsimp only
            push_neg at h3
            have htgt : s.targetTemperature < 32768 := by
              rw [h3.2]
              exact htg
            have hp0 : 0 ≤ elapsed / s.config.durationSecs := div_nonneg hel hdnn
            have hp1 : elapsed / s.config.durationSecs ≤ 1 := by
              rw [div_le_one hdpos]
              exact (not_le.mp h4).le
            obtain ⟨he0, he1⟩ := applyEasing_bounds _ he _ hp0 hp1
            exact interp_in_range s.transitionStartTemp s.targetTemperature hstart
              htgt _ he0 he1
  · unfold Transition.alignWithSchedule
    by_cases h1 : s.config.durationSecs = 0
    · rw [if_pos h1]
      intro hf
      exact absurd hf (by simp)
    · rw [if_neg h1]
      have hdpos : 0 < s.config.durationSecs := lt_of_le_of_ne hdnn (Ne.symm h1)
      dsimp only
      by_cases h2 : s.config.durationSecs < elapsed
      · rw [if_pos h2]
        intro hf
        simp only [decide_eq_true_eq] at hf
        exact absurd hf (lt_irrefl _)
      · rw [if_neg h2]
        intro _
        try dsimp only
        have hp0 : 0 ≤ elapsed / s.config.durationSecs := div_nonneg hel hdnn
        have hp1 : elapsed / s.config.durationSecs ≤ 1 := by
          rw [div_le_one hdpos]
          exact not_lt.mp h2
        obtain ⟨he0, he1⟩ := applyEasing_bounds _ he _ hp0 hp1
        exact interp_in_range st tg2 hst htg2 _ he0 he1

/-- Witness for the amended C3 on a concrete built-in easing. -/
theorem c3_amended_in_transition_range_witness :
    ((Transition.newWithTemp ⟨60, "linear"⟩ 6500).config.easing ∈ builtinEasings ∧
      (Transition.newWithTemp ⟨60, "linear"⟩ 6500).currentTemperature < 32768 ∧
      (Transition.newWithTemp ⟨60, "linear"⟩ 6500).transitionStartTemp < 32768 ∧
      (1500 : ℕ) < 32768 ∧ (6500 : ℕ) < 32768 ∧ (0 : ℚ) ≤ 1800) ∧
    (((Transition.newWithTemp ⟨60, "linear"⟩ 6500).update 1500 1800).inTransition = true →
      min ((Transition.newWithTemp ⟨60, "linear"⟩ 6500).update 1500 1800).transitionStartTemp
          ((Transition.newWithTemp ⟨60, "linear"⟩ 6500).update 1500 1800).targetTemperature ≤
        ((Transition.newWithTemp ⟨60, "linear"⟩ 6500).update 1500 1800).currentTemperature ∧
      ((Transition.newWithTemp ⟨60, "linear"⟩ 6500).update 1500 1800).currentTemperature ≤
        max ((Transition.newWithTemp ⟨60, "linear"⟩ 6500).update 1500 1800).transitionStartTemp
          ((Transition.newWithTemp ⟨60, "linear"⟩ 6500).update 1500 1800).targetTemperature) ∧
    (((Transition.newWithTemp ⟨60, "linear"⟩ 6500).alignWithSchedule 6500 1500
          1800).inTransition = true →
      min ((Transition.newWithTemp ⟨60, "linear"⟩ 6500).alignWithSchedule 6500 1500
            1800).transitionStartTemp
          ((Transition.newWithTemp ⟨60, "linear"⟩ 6500).alignWithSchedule 6500 1500
            1800).targetTemperature ≤
        ((Transition.newWithTemp ⟨60, "linear"⟩ 6500).alignWithSchedule 6500 1500
          1800).currentTemperature ∧
      ((Transition.newWithTemp ⟨60, "linear"⟩ 6500).alignWithSchedule 6500 1500
          1800).currentTemperature ≤
        max ((Transition.newWithTemp ⟨60, "linear"⟩ 6500).alignWithSchedule 6500 1500
            1800).transitionStartTemp
          ((Transition.newWithTemp ⟨60, "linear"⟩ 6500).alignWithSchedule 6500 1500
            1800).targetTemperature) := by
  have h := c3_amended_in_transition_range (Transition.newWithTemp ⟨60, "linear"⟩ 6500)
    1500 6500 1500 1800 (by decide) (by decide) (by decide) (by decide)
    (by decide) (by decide) (by norm_num)
  exact ⟨⟨by decide, by decide, by decide, by decide, by decide, by norm_num⟩,
    h.1, h.2⟩

theorem evalCubicBezier_overshoot_half :
    evalCubicBezier (1 / 2) (1 / 4) 2 (3 / 4) 2 = 13 / 8 := by
  unfold evalCubicBezier
  dsimp only
  rw [bezierNewton_fix _ _ _ _ _ _ (by norm_num)]
  norm_num

/-- C3 counterexample: the in-transition range invariant fails on the code.
With the overshooting descriptor `cubic_bezier(0.25,2.0,0.75,2.0)` (eased
progress 1.625 at t = 0.5), aligning 6500 → 1500 at half duration leaves
current = 63911, far outside [1500, 6500]; and even with `linear` easing,
temperatures whose difference exceeds 32767 (1000 → 40000) wrap in the i16
cast and leave current = 53268 outside [1000, 40000].  Both states are
reachable and in transition. -/
theorem c3_counterexample_out_of_range :
    (Transition.Reachable
        ((Transition.newWithTemp ⟨60, "cubic_bezier(0.25,2.0,0.75,2.0)"⟩
            6500).alignWithSchedule 6500 1500 1800) ∧
      ((Transition.newWithTemp ⟨60, "cubic_bezier(0.25,2.0,0.75,2.0)"⟩
          6500).alignWithSchedule 6500 1500 1800).inTransition = true ∧
      ((Transition.newWithTemp ⟨60, "cubic_bezier(0.25,2.0,0.75,2.0)"⟩
          6500).alignWithSchedule 6500 1500 1800).transitionStartTemp = 6500 ∧
      ((Transition.newWithTemp ⟨60, "cubic_bezier(0.25,2.0,0.75,2.0)"⟩
          6500).alignWithSchedule 6500 1500 1800).targetTemperature = 1500 ∧
      ((Transition.newWithTemp ⟨60, "cubic_bezier(0.25,2.0,0.75,2.0)"⟩
          6500).alignWithSchedule 6500 1500 1800).currentTemperature = 63911 ∧
      ¬(63911 : ℕ) ≤ max 6500 1500) ∧
    (Transition.Reachable
        ((Transition.newWithTemp ⟨60, "linear"⟩ 1000).alignWithSchedule 1000 40000 1800) ∧
      ((Transition.newWithTemp ⟨60, "linear"⟩ 1000).alignWithSchedule 1000 40000
          1800).inTransition = true ∧
      ((Transition.newWithTemp ⟨60, "linear"⟩ 1000).alignWithSchedule 1000 40000
          1800).transitionStartTemp = 1000 ∧
      ((Transition.newWithTemp ⟨60, "linear"⟩ 1000).alignWithSchedule 1000 40000
          1800).targetTemperature = 40000 ∧
      ((Transition.newWithTemp ⟨60, "linear"⟩ 1000).alignWithSchedule 1000 40000
          1800).currentTemperature = 53268 ∧
      ¬(53268 : ℕ) ≤ max 1000 40000) := by
  constructor
  · refine ⟨Transition.Reachable.step_align _ _ _ _
        (Transition.Reachable.init _ 6500 (by norm_num)) (by norm_num) (by norm_num)
        (by norm_num),
      ?_, (Transition.align_fields _ _ _ _).2, (Transition.align_fields _ _ _ _).1,
      ?_, by decide⟩
    · rw [Transition.align_inTransition_eq _ _ _ _
        (by rw [newWithTemp_durationSecs]; norm_num)]
      rw [newWithTemp_durationSecs]
      norm_num
    · unfold Transition.newWithTemp Transition.alignWithSchedule
      rw [if_neg (by rw [show (Transition.mk ⟨60, "cubic_bezier(0.25,2.0,0.75,2.0)"⟩
        6500 6500 6500 false).config.durationSecs = 3600 from by
          unfold TransitionConfig.durationSecs; norm_num]; norm_num)]
      dsimp only
      rw [show TransitionConfig.durationSecs ⟨60, "cubic_bezier(0.25,2.0,0.75,2.0)"⟩
        = 3600 from by unfold TransitionConfig.durationSecs; norm_num]
      rw [if_neg (by norm_num)]
      rw [show (1800 : ℚ) / 3600 = 1 / 2 by norm_num]
      rw [applyEasing_eq_fallback _ _ (by decide) (by decide) (by decide) (by decide)
        (by decide) (by decide) (by decide), parseCubicBezier_overshoot]
      dsimp only
      rw [evalCubicBezier_overshoot_half]
      rw [show toI16 1500 = 1500 from by unfold toI16; decide,
          show toI16 6500 = 6500 from by unfold toI16; decide,
          show wrapI16 (1500 - 6500) = -5000 from by unfold wrapI16; decide]
      rw [show ((-5000 : ℤ) : ℝ) * ((13 / 8 : ℚ) : ℝ) = ((-8125 : ℚ) : ℝ) by
        push_cast; norm_num]
      rw [satI16R_ratCast]
      rw [show satI16Q (-8125 : ℚ) = -8125 from by
        unfold satI16Q
        rw [truncQ_eval_neg _ (by norm_num),
            show (-8125 : ℚ) = -(8125 : ℚ) by norm_num, Int.ceil_neg]
        norm_num]
      unfold toU16
      decide
  · refine ⟨Transition.Reachable.step_align _ _ _ _
        (Transition.Reachable.init _ 1000 (by norm_num)) (by norm_num) (by norm_num)
        (by norm_num),
      ?_, (Transition.align_fields _ _ _ _).2, (Transition.align_fields _ _ _ _).1,
      ?_, by decide⟩
    · rw [Transition.align_inTransition_eq _ _ _ _
        (by rw [newWithTemp_durationSecs]; norm_num)]
      rw [newWithTemp_durationSecs]
      norm_num
    · unfold Transition.newWithTemp Transition.alignWithSchedule
      rw [if_neg (by rw [show (Transition.mk ⟨60, "linear"⟩ 1000 1000 1000
        false).config.durationSecs = 3600 from by
          unfold TransitionConfig.durationSecs; norm_num]; norm_num)]
      dsimp only
      rw [show TransitionConfig.durationSecs ⟨60, "linear"⟩ = 3600 from by
        unfold TransitionConfig.durationSecs; norm_num]
      rw [if_neg (by norm_num)]
      rw [show (1800 : ℚ) / 3600 = 1 / 2 by norm_num]
      rw [applyEasing_eq_linear]
      rw [show toI16 40000 = -25536 from by unfold toI16; decide,
          show toI16 1000 = 1000 from by unfold toI16; decide,
          show wrapI16 (-25536 - 1000) = -26536 from by unfold wrapI16; decide]
      rw [show ((-26536 : ℤ) : ℝ) * ((1 / 2 : ℚ) : ℝ) = ((-13268 : ℚ) : ℝ) by
        push_cast; norm_num]
      rw [satI16R_ratCast]
      rw [show satI16Q (-13268 : ℚ) = -13268 from by
        unfold satI16Q
        rw [truncQ_eval_neg _ (by norm_num),
            show (-13268 : ℚ) = -(13268 : ℚ) by norm_num, Int.ceil_neg]
        norm_num]
      unfold toU16
      decide

theorem autoPhase_eq_ttn_iff (sunrise sunset : ℤ) (dm : ℕ) (now : ℤ) :
    autoPhase sunrise sunset dm now = Phase.transitioningToNight ↔
      sunset ≤ now ∧ now < sunset + 60 * dm := by
  unfold autoPhase
  dsimp only
  split_ifs with h1 h2 h3 h4 <;> simp <;> omega

theorem autoPhase_eq_ttd_iff (sunrise sunset : ℤ) (dm : ℕ) (now : ℤ) :
    autoPhase sunrise sunset dm now = Phase.transitioningToDay ↔
      now < sunset ∧ sunrise ≤ now ∧ now < sunrise + 60 * dm := by
  unfold autoPhase
  dsimp only
  split_ifs with h1 h2 h3 h4 <;> simp <;> omega

theorem autoPhase_eq_day_iff (sunrise sunset : ℤ) (dm : ℕ) (now : ℤ) :
    autoPhase sunrise sunset dm now = Phase.day ↔
      sunrise + 60 * dm ≤ now ∧ now < sunset := by
  unfold autoPhase
  dsimp only
  split_ifs with h1 h2 h3 h4 <;> simp <;> omega

theorem autoPhase_eq_night_iff (sunrise sunset : ℤ) (dm : ℕ) (now : ℤ)
    (hsr : sunrise ≤ sunset) :
    autoPhase sunrise sunset dm now = Phase.night ↔
      sunset + 60 * dm ≤ now ∨ now < sunrise := by
  unfold autoPhase
  dsimp only
  split_ifs with h1 h2 h3 h4 <;> simp <;> omega

theorem fixedPhase_eq_ttd_iff (wakeup bedtime : ℤ) (dm : ℕ) (t : ℤ)
    (hw0 : 0 ≤ wakeup) (hfix : wakeup + 60 * dm ≤ bedtime - 60 * dm)
    (hb : bedtime < 86400) (hd : 0 < dm) :
    fixedPhase wakeup bedtime dm t = Phase.transitioningToDay ↔
      wakeup ≤ t ∧ t < wakeup + 60 * dm := by
  unfold fixedPhase wrapTod
  dsimp only
  split_ifs with h1 h2 h3 <;> simp <;> omega

theorem fixedPhase_eq_ttn_iff (wakeup bedtime : ℤ) (dm : ℕ) (t : ℤ)
    (hw0 : 0 ≤ wakeup) (hfix : wakeup + 60 * dm ≤ bedtime - 60 * dm)
    (hb : bedtime < 86400) (hd : 0 < dm) :
    fixedPhase wakeup bedtime dm t = Phase.transitioningToNight ↔
      bedtime - 60 * dm ≤ t ∧ t < bedtime := by
  unfold fixedPhase wrapTod
  dsimp only
  split_ifs with h1 h2 h3 <;> simp <;> omega

theorem fixedPhase_eq_day_iff (wakeup bedtime : ℤ) (dm : ℕ) (t : ℤ)
    (hw0 : 0 ≤ wakeup) (hfix : wakeup + 60 * dm ≤ bedtime - 60 * dm)
    (hb : bedtime < 86400) (hd : 0 < dm) :
    fixedPhase wakeup bedtime dm t = Phase.day ↔
      wakeup + 60 * dm ≤ t ∧ t < bedtime - 60 * dm := by
  unfold fixedPhase wrapTod
  dsimp only
  split_ifs with h1 h2 h3 <;> simp <;> omega

theorem fixedPhase_eq_night_iff (wakeup bedtime : ℤ) (dm : ℕ) (t : ℤ)
    (hw0 : 0 ≤ wakeup) (hfix : wakeup + 60 * dm ≤ bedtime - 60 * dm)
    (hb : bedtime < 86400) (hd : 0 < dm) :
    fixedPhase wakeup bedtime dm t = Phase.night ↔
      t < wakeup ∨ bedtime ≤ t := by
  unfold fixedPhase wrapTod
  dsimp only
  split_ifs with h1 h2 h3 <;> simp <;> omega

theorem dayOf_bounds (now : ℤ) : 86400 * dayOf now ≤ now ∧ now < 86400 * (dayOf now + 1) := by
  unfold dayOf
  omega

theorem todOf_eq (now : ℤ) : now = 86400 * dayOf now + todOf now ∧ 0 ≤ todOf now ∧ todOf now < 86400 := by
  unfold dayOf todOf
  omega

/-- C4: phase classification is total in both modes (every timestamp gets
exactly one of the four phases), interval comparisons are half-open, and
boundary instants belong to the later state: the instant exactly at sunset
is TransitioningToNight, at sunset+duration is Night, at sunrise is
TransitioningToDay, at sunrise+duration is Day, and the analogous fixed-mode
boundaries at wakeup, wakeup+duration, bedtime−duration and bedtime — for a
positive duration and a schedule whose windows do not cross midnight. -/
theorem c4_phase_total_and_halfopen_boundaries (sr ss : ℤ → ℤ) (c : Schedule)
    (sunrise sunset wakeup bedtime : ℤ) (dm : ℕ)
    (hd : 0 < dm) (hauto : sunrise + 60 * dm < sunset)
    (hw0 : 0 ≤ wakeup) (hfix : wakeup + 60 * dm < bedtime - 60 * dm)
    (hb : bedtime < 86400) :
    (∀ now : ℤ, currentPhaseAt sr ss c now = Phase.day ∨
      currentPhaseAt sr ss c now = Phase.transitioningToNight ∨
      currentPhaseAt sr ss c now = Phase.night ∨
      currentPhaseAt sr ss c now = Phase.transitioningToDay) ∧
    autoPhase sunrise sunset dm sunset = Phase.transitioningToNight ∧
    autoPhase sunrise sunset dm (sunset + 60 * dm) = Phase.night ∧
    autoPhase sunrise sunset dm sunrise = Phase.transitioningToDay ∧
    autoPhase sunrise sunset dm (sunrise + 60 * dm) = Phase.day ∧
    fixedPhase wakeup bedtime dm wakeup = Phase.transitioningToDay ∧
    fixedPhase wakeup bedtime dm (wakeup + 60 * dm) = Phase.day ∧
    fixedPhase wakeup bedtime dm (bedtime - 60 * dm) = Phase.transitioningToNight ∧
    fixedPhase wakeup bedtime dm bedtime = Phase.night := by
  refine ⟨?_, ?_, ?_, ?_, ?_, ?_, ?_, ?_, ?_⟩
  · intro now
    cases currentPhaseAt sr ss c now <;> simp
  · rw [autoPhase_eq_ttn_iff]
    omega
  · rw [autoPhase_eq_night_iff _ _ _ _ (by omega)]
    omega
  · rw [autoPhase_eq_ttd_iff]
    omega
  · rw [autoPhase_eq_day_iff]
    omega
  · rw [fixedPhase_eq_ttd_iff _ _ _ _ hw0 (by omega) hb hd]
    omega
  · rw [fixedPhase_eq_day_iff _ _ _ _ hw0 (by omega) hb hd]
    omega
  · rw [fixedPhase_eq_ttn_iff _ _ _ _ hw0 (by omega) hb hd]
    omega
  · rw [fixedPhase_eq_night_iff _ _ _ _ hw0 (by omega) hb hd]
    omega

/-- Witness for C4 at a concrete schedule (sunrise 06:00, sunset 18:00,
wakeup 07:00, bedtime 22:00, 60-minute transitions). -/
theorem c4_phase_total_and_halfopen_boundaries_witness :
    ((0 : ℕ) < 60 ∧ (21600 : ℤ) + 60 * 60 < 64800 ∧ (0 : ℤ) ≤ 25200 ∧
      (25200 : ℤ) + 60 * 60 < 79200 - 60 * 60 ∧ (79200 : ℤ) < 86400) ∧
    ((∀ now : ℤ,
        currentPhaseAt (fun _ => 21600) (fun _ => 64800)
            ⟨Mode.auto, 25200, 79200, 60, 6500, 1500⟩ now = Phase.day ∨
        currentPhaseAt (fun _ => 21600) (fun _ => 64800)
            ⟨Mode.auto, 25200, 79200, 60, 6500, 1500⟩ now = Phase.transitioningToNight ∨
        currentPhaseAt (fun _ => 21600) (fun _ => 64800)
            ⟨Mode.auto, 25200, 79200, 60, 6500, 1500⟩ now = Phase.night ∨
        currentPhaseAt (fun _ => 21600) (fun _ => 64800)
            ⟨Mode.auto, 25200, 79200, 60, 6500, 1500⟩ now = Phase.transitioningToDay) ∧
      autoPhase 21600 64800 60 64800 = Phase.transitioningToNight ∧
      autoPhase 21600 64800 60 (64800 + 60 * 60) = Phase.night ∧
      autoPhase 21600 64800 60 21600 = Phase.transitioningToDay ∧
      autoPhase 21600 64800 60 (21600 + 60 * 60) = Phase.day ∧
      fixedPhase 25200 79200 60 25200 = Phase.transitioningToDay ∧
      fixedPhase 25200 79200 60 (25200 + 60 * 60) = Phase.day ∧
      fixedPhase 25200 79200 60 (79200 - 60 * 60) = Phase.transitioningToNight ∧
      fixedPhase 25200 79200 60 79200 = Phase.night) :=
  ⟨⟨by norm_num, by norm_num, by norm_num, by norm_num, by norm_num⟩,
   c4_phase_total_and_halfopen_boundaries (fun _ => 21600) (fun _ => 64800)
     ⟨Mode.auto, 25200, 79200, 60, 6500, 1500⟩ 21600 64800 25200 79200 60
     (by norm_num) (by norm_num) (by norm_num) (by norm_num) (by norm_num)⟩

/-- C5 counterexample: in Fixed mode the claim fails twice.  (a) The
bedtime window's start is `bedtime − duration`, i.e. adjusted by the
duration, not the raw bedtime instant: with wakeup 07:00, bedtime 22:00,
60-minute duration, at 21:30 the window starts at 21:00 (75600), not 22:00
(79200).  (b) When `wakeup + duration` crosses midnight (wakeup 23:30,
duration 60 min), at 23:45 the phase is Night (the time-of-day comparison
window is empty) yet a window is returned (the datetime comparison window
is not), breaking the claimed equivalence. -/
theorem c5_counterexample_fixed_window :
    (transitionWindowAt (fun _ => 0) (fun _ => 0)
        ⟨Mode.fixed, 25200, 79200, 60, 6500, 1500⟩ 77400 =
        some ⟨75600, 6500, 1500⟩ ∧
      (75600 : ℤ) ≠ 79200) ∧
    (currentPhaseAt (fun _ => 0) (fun _ => 0)
        ⟨Mode.fixed, 84600, 79200, 60, 6500, 1500⟩ 85500 = Phase.night ∧
      (transitionWindowAt (fun _ => 0) (fun _ => 0)
          ⟨Mode.fixed, 84600, 79200, 60, 6500, 1500⟩ 85500).isSome = true) :=
  ⟨⟨by decide, by decide⟩, by decide, by decide⟩

/-- C5 (amended): `transition_window_at` returns none whenever the duration
is zero; with a positive duration it returns a window exactly when the
phase is Transitioning* — in Auto mode (given sunrise ≤ sunset) with the
window start equal to the raw sunrise/sunset instant, and in Fixed mode
(given a schedule whose windows do not cross midnight) with the wake
window starting at the wakeup instant but the bedtime window starting at
`bedtime − duration` (its end is the bedtime instant), not at the raw
bedtime instant as the original claim states. -/
theorem c5_amended_window_iff (sr ss : ℤ → ℤ) (wakeup bedtime : ℤ) (dm : ℕ)
    (tday tnight : ℕ) (now : ℤ)
    (hsr : sr (dayOf now) ≤ ss (dayOf now))
    (hd : 0 < dm) (hw0 : 0 ≤ wakeup) (hfix : wakeup + 60 * dm ≤ bedtime - 60 * dm)
    (hb : bedtime < 86400) :
    (∀ c : Schedule, c.durationMinutes = 0 →
      transitionWindowAt sr ss c now = none) ∧
    (((transitionWindowAt sr ss ⟨Mode.auto, wakeup, bedtime, dm, tday, tnight⟩
          now).isSome = true ↔
        (currentPhaseAt sr ss ⟨Mode.auto, wakeup, bedtime, dm, tday, tnight⟩ now =
            Phase.transitioningToDay ∨
          currentPhaseAt sr ss ⟨Mode.auto, wakeup, bedtime, dm, tday, tnight⟩ now =
            Phase.transitioningToNight)) ∧
      (∀ w, transitionWindowAt sr ss ⟨Mode.auto, wakeup, bedtime, dm, tday, tnight⟩
          now = some w →
        (currentPhaseAt sr ss ⟨Mode.auto, wakeup, bedtime, dm, tday, tnight⟩ now =
            Phase.transitioningToNight →
          w.start = ss (dayOf now) ∧ w.startTemp = tday ∧ w.targetTemp = tnight) ∧
        (currentPhaseAt sr ss ⟨Mode.auto, wakeup, bedtime, dm, tday, tnight⟩ now =
            Phase.transitioningToDay →
          w.start = sr (dayOf now) ∧ w.startTemp = tnight ∧ w.targetTemp = tday))) ∧
    (((transitionWindowAt sr ss ⟨Mode.fixed, wakeup, bedtime, dm, tday, tnight⟩
          now).isSome = true ↔
        (currentPhaseAt sr ss ⟨Mode.fixed, wakeup, bedtime, dm, tday, tnight⟩ now =
            Phase.transitioningToDay ∨
          currentPhaseAt sr ss ⟨Mode.fixed, wakeup, bedtime, dm, tday, tnight⟩ now =
            Phase.transitioningToNight)) ∧
      (∀ w, transitionWindowAt sr ss ⟨Mode.fixed, wakeup, bedtime, dm, tday, tnight⟩
          now = some w →
        (currentPhaseAt sr ss ⟨Mode.fixed, wakeup, bedtime, dm, tday, tnight⟩ now =
            Phase.transitioningToDay →
          w.start = 86400 * dayOf now + wakeup) ∧
        (currentPhaseAt sr ss ⟨Mode.fixed, wakeup, bedtime, dm, tday, tnight⟩ now =
            Phase.transitioningToNight →
          w.start = 86400 * dayOf now + bedtime - 60 * dm))) := by
  obtain ⟨hteq, ht0, ht1⟩ := todOf_eq now
  refine ⟨?_, ?_, ?_⟩
  · intro c hc
    unfold transitionWindowAt
    dsimp only
    rw [hc]
    norm_num
  · unfold transitionWindowAt currentPhaseAt
    dsimp only
    rw [if_neg (show ¬(60 * ((dm : ℕ) : ℤ) = 0) by omega)]
    unfold autoTransitionWindow
    dsimp only
    split_ifs with hc1 hc2
    · have hph : autoPhase (sr (dayOf now)) (ss (dayOf now)) dm now =
          Phase.transitioningToNight := (autoPhase_eq_ttn_iff _ _ _ _).mpr hc1
      refine ⟨by simp [hph], ?_⟩
      intro w hw
      obtain rfl := (Option.some.inj hw).symm
      refine ⟨fun _ => ⟨rfl, rfl, rfl⟩, fun hph2 => ?_⟩
      rw [hph] at hph2
      exact absurd hph2 (by simp)
    · have hnowS : now < ss (dayOf now) := by omega
      have hph : autoPhase (sr (dayOf now)) (ss (dayOf now)) dm now =
          Phase.transitioningToDay :=
        (autoPhase_eq_ttd_iff _ _ _ _).mpr ⟨hnowS, hc2.1, hc2.2⟩
      refine ⟨by simp [hph], ?_⟩
      intro w hw
      obtain rfl := (Option.some.inj hw).symm
      refine ⟨fun hph2 => ?_, fun _ => ⟨rfl, rfl, rfl⟩⟩
      rw [hph] at hph2
      exact absurd hph2 (by simp)
    · refine ⟨?_, fun w hw => absurd hw (by simp)⟩
      simp only [Option.isSome_none, Bool.false_eq_true, false_iff]
      intro h
      rcases h with h | h
      · rw [autoPhase_eq_ttd_iff] at h
        omega
      · rw [autoPhase_eq_ttn_iff] at h
        omega
  · unfold transitionWindowAt currentPhaseAt
    dsimp only
    rw [if_neg (show ¬(60 * ((dm : ℕ) : ℤ) = 0) by omega)]
    unfold fixedTransitionWindow
    dsimp only
    split_ifs with hc1 hc2
    · have hph : fixedPhase wakeup bedtime dm (todOf now) =
          Phase.transitioningToDay :=
        (fixedPhase_eq_ttd_iff _ _ _ _ hw0 hfix hb hd).mpr ⟨by omega, by omega⟩
      refine ⟨by simp [hph], ?_⟩
      intro w hw
      obtain rfl := (Option.some.inj hw).symm
      refine ⟨fun _ => rfl, fun hph2 => ?_⟩
      rw [hph] at hph2
      exact absurd hph2 (by simp)
    · have hph : fixedPhase wakeup bedtime dm (todOf now) =
          Phase.transitioningToNight :=
        (fixedPhase_eq_ttn_iff _ _ _ _ hw0 hfix hb hd).mpr ⟨by omega, by omega⟩
      refine ⟨by simp [hph], ?_⟩
      intro w hw
      obtain rfl := (Option.some.inj hw).symm
      refine ⟨fun hph2 => ?_, fun _ => rfl⟩
      rw [hph] at hph2
      exact absurd hph2 (by simp)
    · refine ⟨?_, fun w hw => absurd hw (by simp)⟩
      simp only [Option.isSome_none, Bool.false_eq_true, false_iff]
      intro h
      rcases h with h | h
      · rw [fixedPhase_eq_ttd_iff _ _ _ _ hw0 hfix hb hd] at h
        omega
      · rw [fixedPhase_eq_ttn_iff _ _ _ _ hw0 hfix hb hd] at h
        omega

/-- Witness for the amended C5 at a concrete schedule and timestamp. -/
theorem c5_amended_window_iff_witness :
    ((fun _ : ℤ => (21600 : ℤ)) 0 ≤ (fun _ : ℤ => (64800 : ℤ)) 0 ∧ (0 : ℕ) < 60 ∧
      (0 : ℤ) ≤ 25200 ∧ (25200 : ℤ) + 60 * 60 ≤ 79200 - 60 * 60 ∧
      (79200 : ℤ) < 86400) ∧
    (∀ c : Schedule, c.durationMinutes = 0 →
      transitionWindowAt (fun _ => 21600) (fun _ => 64800) c 43200 = none) := by
  have h := c5_amended_window_iff (fun _ => 21600) (fun _ => 64800) 25200 79200 60
    6500 1500 43200 (by norm_num) (by norm_num) (by norm_num) (by norm_num)
    (by norm_num)
  exact ⟨⟨by norm_num, by norm_num, by norm_num, by norm_num, by norm_num⟩, h.1⟩

/-- C6 counterexample: in Fixed mode during the Day phase,
`next_transition_start` returns `bedtime − duration` (the start of the
transitioning-to-night window), not the bedtime instant the claim states:
wakeup 07:00, bedtime 22:00, 60-minute duration, at noon the result is
75600 (21:00), not 79200 (22:00). -/
theorem c6_counterexample_fixed_day_returns_window_start :
    currentPhaseAt (fun _ => 0) (fun _ => 0)
        ⟨Mode.fixed, 25200, 79200, 60, 6500, 1500⟩ 43200 = Phase.day ∧
    nextTransitionStart (fun _ => 0) (fun _ => 0)
        ⟨Mode.fixed, 25200, 79200, 60, 6500, 1500⟩ 43200 = some 75600 ∧
    (75600 : ℤ) ≠ 86400 * dayOf (43200 : ℤ) + 79200 :=
  ⟨by decide, by decide, by decide⟩

/-- C6 (amended): `next_transition_start` returns none during a
Transitioning* phase; during Day it returns the next sunset (Auto) resp.
`bedtime − duration`, the start of the transitioning-to-night window
(Fixed; the original claim said the bedtime instant); during Night it
returns today's sunrise/wakeup if still upcoming, otherwise tomorrow's;
and in the Day and Night phases the result is strictly in the future and
at most 24 hours away — under solar-sanity hypotheses (sunrise before
sunset, solar events inside their calendar day, adjacent days similar) and
a fixed schedule whose windows do not cross midnight. -/
theorem c6_amended_next_transition_start (sr ss : ℤ → ℤ) (wakeup bedtime : ℤ)
    (dm : ℕ) (tday tnight : ℕ) (now : ℤ)
    (hd : 0 < dm) (hw0 : 0 ≤ wakeup) (hfix : wakeup + 60 * dm ≤ bedtime - 60 * dm)
    (hb : bedtime < 86400)
    (h1 : sr (dayOf now) < ss (dayOf now))
    (h2 : ss (dayOf now) < 86400 * (dayOf now + 1))
    (h3 : 86400 * (dayOf now + 1) ≤ sr (dayOf now + 1))
    (h4 : sr (dayOf now + 1) ≤ ss (dayOf now) + 86400) :
    (((currentPhaseAt sr ss ⟨Mode.auto, wakeup, bedtime, dm, tday, tnight⟩ now =
          Phase.transitioningToDay ∨
        currentPhaseAt sr ss ⟨Mode.auto, wakeup, bedtime, dm, tday, tnight⟩ now =
          Phase.transitioningToNight) →
        nextTransitionStart sr ss ⟨Mode.auto, wakeup, bedtime, dm, tday, tnight⟩
          now = none) ∧
      (currentPhaseAt sr ss ⟨Mode.auto, wakeup, bedtime, dm, tday, tnight⟩ now =
          Phase.day →
        nextTransitionStart sr ss ⟨Mode.auto, wakeup, bedtime, dm, tday, tnight⟩
            now = some (ss (dayOf now)) ∧
          now < ss (dayOf now) ∧ ss (dayOf now) ≤ now + 86400) ∧
      (currentPhaseAt sr ss ⟨Mode.auto, wakeup, bedtime, dm, tday, tnight⟩ now =
          Phase.night →
        ∃ r, nextTransitionStart sr ss
            ⟨Mode.auto, wakeup, bedtime, dm, tday, tnight⟩ now = some r ∧
          now < r ∧ r ≤ now + 86400 ∧
          (ss (dayOf now) + 60 * dm ≤ now → r = sr (dayOf now + 1)) ∧
          (now < ss (dayOf now) + 60 * dm → r = sr (dayOf now)))) ∧
    (((currentPhaseAt sr ss ⟨Mode.fixed, wakeup, bedtime, dm, tday, tnight⟩ now =
          Phase.transitioningToDay ∨
        currentPhaseAt sr ss ⟨Mode.fixed, wakeup, bedtime, dm, tday, tnight⟩ now =
          Phase.transitioningToNight) →
        nextTransitionStart sr ss ⟨Mode.fixed, wakeup, bedtime, dm, tday, tnight⟩
          now = none) ∧
      (currentPhaseAt sr ss ⟨Mode.fixed, wakeup, bedtime, dm, tday, tnight⟩ now =
          Phase.day →
        nextTransitionStart sr ss ⟨Mode.fixed, wakeup, bedtime, dm, tday, tnight⟩
            now = some (86400 * dayOf now + bedtime - 60 * dm) ∧
          now < 86400 * dayOf now + bedtime - 60 * dm ∧
          86400 * dayOf now + bedtime - 60 * dm ≤ now + 86400) ∧
      (currentPhaseAt sr ss ⟨Mode.fixed, wakeup, bedtime, dm, tday, tnight⟩ now =
          Phase.night →
        ∃ r, nextTransitionStart sr ss
            ⟨Mode.fixed, wakeup, bedtime, dm, tday, tnight⟩ now = some r ∧
          now < r ∧ r ≤ now + 86400 ∧
          (bedtime ≤ todOf now → r = 86400 * (dayOf now + 1) + wakeup) ∧
          (todOf now < bedtime → r = 86400 * dayOf now + wakeup))) := by
  obtain ⟨hteq, ht0, ht1⟩ := todOf_eq now
  obtain ⟨hD0, hD1⟩ := dayOf_bounds now
  constructor
  · unfold currentPhaseAt nextTransitionStart autoNextTransitionStart
    dsimp only
    refine ⟨?_, ?_, ?_⟩
    · intro hph
      rcases hph with hph | hph <;> rw [hph]
    · intro hph
      obtain ⟨hday1, hday2⟩ := (autoPhase_eq_day_iff _ _ _ _).mp hph
      rw [hph]
      exact ⟨rfl, hday2, by omega⟩
    · intro hph
      have hdis := (autoPhase_eq_night_iff _ _ _ _ h1.le).mp hph
      rw [hph]
      by_cases hc : ss (dayOf now) + 60 * (dm : ℤ) ≤ now
      · rw [if_pos hc]
        exact ⟨sr (dayOf now + 1), rfl, by omega, by omega, fun _ => rfl,
          fun hlt => absurd hc (by omega)⟩
      · rw [if_neg hc]
        have hlt : now < sr (dayOf now) := by omega
        exact ⟨sr (dayOf now), rfl, hlt, by omega,
          fun hcc => absurd hcc (by omega), fun _ => rfl⟩
  · unfold currentPhaseAt nextTransitionStart fixedNextTransitionStart
    dsimp only
    refine ⟨?_, ?_, ?_⟩
    · intro hph
      rcases hph with hph | hph <;> rw [hph]
    · intro hph
      obtain ⟨hday1, hday2⟩ :=
        (fixedPhase_eq_day_iff _ _ _ _ hw0 hfix hb hd).mp hph
      rw [hph]
      exact ⟨rfl, by omega, by omega⟩
    · intro hph
      have hdis := (fixedPhase_eq_night_iff _ _ _ _ hw0 hfix hb hd).mp hph
      rw [hph]
      by_cases hc : bedtime ≤ todOf now
      · rw [if_pos hc]
        exact ⟨86400 * (dayOf now + 1) + wakeup, rfl, by omega, by omega,
          fun _ => rfl, fun hlt => absurd hc (by omega)⟩
      · rw [if_neg hc]
        have hlt : todOf now < wakeup := by omega
        exact ⟨86400 * dayOf now + wakeup, rfl, by omega, by omega,
          fun hcc => absurd hcc (by omega), fun _ => rfl⟩

/-- Witness for the amended C6: solar oracle sunrise 06:00 / sunset 18:00
each day, fixed schedule 07:00–22:00, 60-minute duration, at noon of day 0. -/
theorem c6_amended_next_transition_start_witness :
    ((0 : ℕ) < 60 ∧ (0 : ℤ) ≤ 25200 ∧
      (25200 : ℤ) + 60 * 60 ≤ 79200 - 60 * 60 ∧ (79200 : ℤ) < 86400 ∧
      (fun d : ℤ => 86400 * d + 21600) (dayOf 43200) <
        (fun d : ℤ => 86400 * d + 64800) (dayOf 43200) ∧
      (fun d : ℤ => 86400 * d + 64800) (dayOf 43200) <
        86400 * (dayOf (43200 : ℤ) + 1) ∧
      86400 * (dayOf (43200 : ℤ) + 1) ≤
        (fun d : ℤ => 86400 * d + 21600) (dayOf (43200 : ℤ) + 1) ∧
      (fun d : ℤ => 86400 * d + 21600) (dayOf (43200 : ℤ) + 1) ≤
        (fun d : ℤ => 86400 * d + 64800) (dayOf 43200) + 86400) ∧
    (currentPhaseAt (fun d => 86400 * d + 21600) (fun d => 86400 * d + 64800)
        ⟨Mode.auto, 25200, 79200, 60, 6500, 1500⟩ 43200 = Phase.day →
      nextTransitionStart (fun d => 86400 * d + 21600) (fun d => 86400 * d + 64800)
          ⟨Mode.auto, 25200, 79200, 60, 6500, 1500⟩ 43200 =
          some ((fun d : ℤ => 86400 * d + 64800) (dayOf 43200)) ∧
        (43200 : ℤ) < (fun d : ℤ => 86400 * d + 64800) (dayOf 43200) ∧
        (fun d : ℤ => 86400 * d + 64800) (dayOf 43200) ≤ 43200 + 86400) :=
  ⟨⟨by norm_num, by norm_num, by norm_num, by norm_num, by decide, by decide,
    by decide, by decide⟩,
   (c6_amended_next_transition_start (fun d => 86400 * d + 21600)
      (fun d => 86400 * d + 64800) 25200 79200 60 6500 1500 43200 (by norm_num)
      (by norm_num) (by norm_num) (by norm_num) (by decide) (by decide)
      (by decide) (by decide)).1.2.1⟩

theorem expandPath_ok_of_not_tilde (home : Option String) (path : String)
    (h : path.data.head? ≠ some '~') :
    expandPath home path = Except.ok (some path) := by
  unfold expandPath
  split
  · rename_i rest heq
    rw [heq] at h
    simp at h
  · rfl

/-- C10: the claim that `State::load`/`State::save` are total (never panic)
over all path strings is the evident intent (read failures are "fully
recovered locally"), but the code panics on the path `"~"` when a home
directory exists: `expand_path` slices `&path[2..]` out of a 1-byte string.
For every path not starting with `~` both operations are total. -/
theorem c10_load_save_panic_on_bare_tilde :
    State.load (some "/root") (fun _ => none) (fun _ => none) "~" =
      Except.error () ∧
    State.save (some "/root") (fun _ => IoResult.ok) ⟨6500, 0, 0, 1500⟩ "~" =
      Except.error () ∧
    (∀ (home : Option String) (readFile : String → Option String)
        (parseToml : String → Option State) (st : State)
        (writeResult : String → IoResult) (path : String),
      path.data.head? ≠ some '~' →
      (∃ v, State.load home readFile parseToml path = Except.ok v) ∧
      (∃ v, State.save home writeResult st path = Except.ok v)) := by
  refine ⟨rfl, rfl, ?_⟩
  intro home readFile parseToml st writeResult path h
  constructor
  · unfold State.load
    rw [expandPath_ok_of_not_tilde home path h]
    exact ⟨_, rfl⟩
  · unfold State.save
    rw [expandPath_ok_of_not_tilde home path h]
    exact ⟨_, rfl⟩
